import Mathlib

/-!
# lldpd `src/log.c`: a shallow embedding and its verified properties

The module keeps two process-wide variables (`debug`, `logh`) and sends every
message to exactly one sink: the registered handler, standard error, or
syslog.  The embedding threads the variables (and `errno`) through a `State`
record and returns, for every entry point, the new state together with the
list of externally visible events the call produced.

The C library is not part of the repository.  Its functions appear here as
small models (`vformat`, `strftime`, `isatty`) or as parameters (`strerror`,
the per-call answers of the system in `Sys`).
-/

namespace Log

/-! ## Constants of `<syslog.h>`, `<unistd.h>` and `<errno.h>` -/

def LOG_EMERG : Int := 0
def LOG_ALERT : Int := 1
def LOG_CRIT : Int := 2
def LOG_ERR : Int := 3
def LOG_WARNING : Int := 4
def LOG_NOTICE : Int := 5
def LOG_INFO : Int := 6
def LOG_DEBUG : Int := 7

def LOG_PID : Nat := 1
def LOG_NDELAY : Nat := 8
def LOG_DAEMON : Nat := 24

def STDERR_FILENO : Int := 2

def ENOMEM : Int := 12
def ENOTTY : Int := 25

/-! ## The `printf` family -/

/-- One variadic argument of a `printf`-style call. -/
inductive Arg where
  | str (s : String)
  | int (n : Int)
  | chr (c : Char)
  deriving DecidableEq, Repr

/-- The text a conversion character produces for an argument, when the two
agree: `%s` takes a string, `%d` and `%i` a signed integer, `%c` a character. -/
def conv (d : Char) (a : Arg) : Option (List Char) :=
  match a with
  | Arg.str s => if d = 's' then some s.data else none
  | Arg.int n => if d = 'd' ∨ d = 'i' then some (toString n).data else none
  | Arg.chr c => if d = 'c' then some [c] else none

/-- Expansion of a format, character by character.  `%%` yields one percent
sign; `%` followed by a supported conversion character consumes the next
argument.  Anything else (a conversion outside this fragment, a missing or
mistyped argument: undefined in C) is copied through unchanged. -/
def vformatAux : List Char → List Arg → List Char
  | [], _ => []
  | c :: rest, ap =>
    if c = '%' then
      match rest, ap with
      | [], _ => [c]
      | d :: cs, [] => if d = '%' then '%' :: vformatAux cs [] else c :: vformatAux (d :: cs) []
      | d :: cs, a :: ap' =>
        if d = '%' then '%' :: vformatAux cs (a :: ap')
        else
          match conv d a with
          | some out => out ++ vformatAux cs ap'
          | none => c :: vformatAux (d :: cs) (a :: ap')
    else c :: vformatAux rest ap

/-- What `vasprintf`, `asprintf`, `vfprintf` and `vsyslog` render from a
format and its arguments. -/
def vformat (fmt : String) (ap : List Arg) : String :=
  ⟨vformatAux fmt.data ap⟩

/-- A character that neither starts nor completes a conversion. -/
def Plain (x : Char) : Prop :=
  x ≠ '%' ∧ x ≠ 's' ∧ x ≠ 'd' ∧ x ≠ 'i' ∧ x ≠ 'c'

/-! ## Time -/

/-- The fields of `struct tm` that the timestamp format reads. -/
structure Tm where
  tm_sec : Nat
  tm_min : Nat
  tm_hour : Nat
  tm_mday : Nat
  tm_mon : Nat
  tm_year : Int
  deriving DecidableEq, Repr

/-- A number in decimal, zero-padded to at least two digits (`%m`, `%d`, `%H`,
`%M`, `%S`). -/
def pad2 (n : Nat) : List Char :=
  if n < 10 then '0' :: (toString n).data else (toString n).data

/-- The text of a `strftime` conversion character, for the six conversions the
module uses.  `%Y` is the year as a decimal number, `tm_year + 1900`. -/
def strftimeConv (d : Char) (tm : Tm) : Option (List Char) :=
  if d = 'Y' then some (toString (tm.tm_year + 1900)).data
  else if d = 'm' then some (pad2 (tm.tm_mon + 1))
  else if d = 'd' then some (pad2 tm.tm_mday)
  else if d = 'H' then some (pad2 tm.tm_hour)
  else if d = 'M' then some (pad2 tm.tm_min)
  else if d = 'S' then some (pad2 tm.tm_sec)
  else none

/-- Expansion of a `strftime` format; other characters are copied through. -/
def strftimeAux : List Char → Tm → List Char
  | [], _ => []
  | c :: rest, tm =>
    if c = '%' then
      match rest with
      | [] => [c]
      | d :: cs =>
        match strftimeConv d tm with
        | some out => out ++ strftimeAux cs tm
        | none => c :: strftimeAux (d :: cs) tm
    else c :: strftimeAux rest tm

/-- What the buffer of `strftime(buf, max, fmt, tm)` holds afterwards, as a
string.  When the text and its terminator do not fit in `max` bytes, C leaves
the contents unspecified; the model keeps the `max - 1` characters that fit. -/
def strftime (max : Nat) (fmt : String) (tm : Tm) : String :=
  ⟨(strftimeAux fmt.data tm).take (max - 1)⟩

/-- The function `date` of log.c: the current local time, written into a static
buffer of `sizeof "2012-12-12T16:13:30"` = 20 bytes.  `tm` is what
`localtime(time(NULL))` answered. -/
def date (tm : Tm) : String :=
  strftime 20 "%Y-%m-%dT%H:%M:%S" tm

/-! ## State, system answers and events -/

/-- A registered callback, identified by its address. -/
abbrev Handler := Nat

/-- The process-wide variables the module reads and writes: the statics `debug`
and `logh`, and the C library's `errno`. -/
structure State where
  debug : Int
  logh : Option Handler
  errno : Int
  deriving DecidableEq, Repr

/-- The state at program start: `debug = 1`, `logh = NULL`. -/
def State.init : State := { debug := 1, logh := none, errno := 0 }

/-- What the system answers during one run of `vlog`. -/
structure Sys where
  /-- Outcome of `vasprintf(&result, fmt, ap)`: `true` unless it returns -1. -/
  vasprintf_ok : Bool
  /-- Outcome of `asprintf(&nfmt, "%s %s %s\n", ...)`: `true` unless it returns -1. -/
  asprintf_ok : Bool
  /-- The broken-down local time `localtime(time(NULL))`. -/
  tm : Tm
  /-- The answer of `isatty` for a file descriptor. -/
  isatty : Int → Int
  /-- The value `isatty` leaves in `errno` when it does not answer 1: `ENOTTY`
  for a descriptor that is not a terminal, `EBADF` for a closed one. -/
  isatty_errno : Int

/-- An externally visible effect. -/
inductive Event where
  | openlog (ident : String) (logopt : Nat) (facility : Nat)
  | tzset
  | logh (cb : Handler) (severity : Int) (msg : String)
  | stderr (bytes : String)
  | fflush
  | syslog (pri : Int) (msg : String)
  | exit (status : Int)
  deriving DecidableEq, Repr

/-! ## The functions of log.c -/

def log_init (st : State) (n_debug : Int) (progname : String) : State × List Event :=
  let st1 := { st with debug := n_debug }
  (st1,
    (if st1.debug = 0 then [Event.openlog progname (LOG_PID ||| LOG_NDELAY) LOG_DAEMON] else [])
      ++ [Event.tzset])

def log_register (st : State) (cb : Option Handler) : State × List Event :=
  ({ st with logh := cb }, [])

/-- Translate a syslog priority to a string, with colors if the output is a
terminal (`isatty` answers 1). -/
def translate (sys : Sys) (fd : Int) (priority : Int) : String :=
  let tty := sys.isatty fd
  if tty = 1 then
    if priority = LOG_EMERG then "\x1b[1;37;41m[EMRG]\x1b[0m"
    else if priority = LOG_ALERT then "\x1b[1;37;41m[ALRT]\x1b[0m"
    else if priority = LOG_CRIT then "\x1b[1;37;41m[CRIT]\x1b[0m"
    else if priority = LOG_ERR then "\x1b[1;31m[ ERR]\x1b[0m"
    else if priority = LOG_WARNING then "\x1b[1;33m[WARN]\x1b[0m"
    else if priority = LOG_NOTICE then "\x1b[1;34m[NOTI]\x1b[0m"
    else if priority = LOG_INFO then "\x1b[1;34m[INFO]\x1b[0m"
    else if priority = LOG_DEBUG then "\x1b[1;30m[ DBG]\x1b[0m"
    else "[UNKN]"
  else
    if priority = LOG_EMERG then "[EMRG]"
    else if priority = LOG_ALERT then "[ALRT]"
    else if priority = LOG_CRIT then "[CRIT]"
    else if priority = LOG_ERR then "[ ERR]"
    else if priority = LOG_WARNING then "[WARN]"
    else if priority = LOG_NOTICE then "[NOTI]"
    else if priority = LOG_INFO then "[INFO]"
    else if priority = LOG_DEBUG then "[ DBG]"
    else "[UNKN]"

/-- The value of `errno` after `isatty(fd)`: unchanged when the descriptor is a
terminal, what `isatty` leaves there otherwise. -/
def errnoAfterIsatty (sys : Sys) (fd : Int) (errno : Int) : Int :=
  if sys.isatty fd = 1 then errno else sys.isatty_errno

/-- The dispatcher.  `ap` is what the `va_list` yields when it is read first,
`ap2` what it yields when it is read again: line 117 hands the `va_list` to
`vasprintf`, and after a failure lines 130 and 133 use the same `va_list` once
more, without `va_copy`.  Where the `va_list` is passed by value the second
read yields the same arguments (`ap2 = ap`); where it is passed by reference
`vasprintf` has consumed it and the second read yields other values.

A failed `vasprintf` or `asprintf` leaves `ENOMEM` in `errno`; the library
calls that succeed leave `errno` alone, and so does the handler. -/
def vlog (sys : Sys) (st : State) (pri : Int) (fmt : String) (ap ap2 : List Arg) :
    State × List Event :=
  -- lines 123-138, entered with the state `st1` and a `va_list` yielding `args`
  let output (st1 : State) (args : List Arg) : State × List Event :=
    if st1.debug ≠ 0 ∨ st1.logh.isSome then
      let stamp := date sys.tm
      let tag := translate sys STDERR_FILENO pri
      let st2 : State := { st1 with errno := errnoAfterIsatty sys STDERR_FILENO st1.errno }
      -- best effort in out of mem situations
      if sys.asprintf_ok then
        let nfmt := vformat "%s %s %s\n" [Arg.str stamp, Arg.str tag, Arg.str fmt]
        (st2, [Event.stderr (vformat nfmt args), Event.fflush])
      else
        ({ st2 with errno := ENOMEM },
          [Event.stderr (vformat fmt args), Event.stderr (vformat "\n" []), Event.fflush])
    else
      (st1, [Event.syslog pri (vformat fmt args)])
  match st.logh with
  | some cb =>
    if sys.vasprintf_ok then
      (st, [Event.logh cb pri (vformat fmt ap)])
    else
      -- Otherwise, fallback to output on stderr.
      output { st with errno := ENOMEM } ap2
  | none => output st ap

def logit (sys : Sys) (st : State) (pri : Int) (fmt : String) (ap ap2 : List Arg) :
    State × List Event :=
  vlog sys st pri fmt ap ap2

/-! ### The public entry points

The entry points are modelled where the `va_list` survives a failed
`vasprintf`: the arguments are handed to `vlog` for both reads. -/

/-- The function `log_warn`.  `asprintf_ok` is the outcome of
`asprintf(&nfmt, "%s: %s", emsg, strerror(errno))`; `sys1` and `sys2` are the
system's answers during the first and the second dispatch. -/
def log_warn (strerror : Int → String) (asprintf_ok : Bool) (sys1 sys2 : Sys) (st : State)
    (emsg : Option String) (ap : List Arg) : State × List Event :=
  match emsg with
  | none =>
    let args := [Arg.str (strerror st.errno)]
    logit sys1 st LOG_WARNING "%s" args args
  | some emsg =>
    if asprintf_ok then
      let nfmt := vformat "%s: %s" [Arg.str emsg, Arg.str (strerror st.errno)]
      vlog sys1 st LOG_WARNING nfmt ap ap
    else
      -- we tried it...
      let r1 := vlog sys1 { st with errno := ENOMEM } LOG_WARNING emsg ap ap
      let args := [Arg.str (strerror r1.1.errno)]
      let r2 := logit sys2 r1.1 LOG_WARNING "%s" args args
      (r2.1, r1.2 ++ r2.2)

def log_warnx (sys : Sys) (st : State) (emsg : String) (ap : List Arg) : State × List Event :=
  vlog sys st LOG_WARNING emsg ap ap

def log_info (sys : Sys) (st : State) (emsg : String) (ap : List Arg) : State × List Event :=
  if st.debug > 1 ∨ st.logh.isSome then vlog sys st LOG_INFO emsg ap ap else (st, [])

def log_debug (sys : Sys) (st : State) (emsg : String) (ap : List Arg) : State × List Event :=
  if st.debug > 2 ∨ st.logh.isSome then vlog sys st LOG_DEBUG emsg ap ap else (st, [])

def fatal (strerror : Int → String) (sys : Sys) (st : State) (emsg : Option String) :
    State × List Event :=
  let r :=
    match emsg with
    | none =>
      let args := [Arg.str (strerror st.errno)]
      logit sys st LOG_CRIT "fatal: %s" args args
    | some emsg =>
      if st.errno ≠ 0 then
        let args := [Arg.str emsg, Arg.str (strerror st.errno)]
        logit sys st LOG_CRIT "fatal: %s: %s" args args
      else
        let args := [Arg.str emsg]
        logit sys st LOG_CRIT "fatal: %s" args args
  (r.1, r.2 ++ [Event.exit 1])

def fatalx (strerror : Int → String) (sys : Sys) (st : State) (emsg : Option String) :
    State × List Event :=
  fatal strerror sys { st with errno := 0 } emsg

/-! ## Observations on traces -/

/-- The arguments a run of `vlog` renders its output from: what the second read
of the `va_list` yields when a handler is registered and `vasprintf` failed,
what the first read yields otherwise. -/
def renderedArgs (sys : Sys) (st : State) (ap ap2 : List Arg) : List Arg :=
  if st.logh.isSome ∧ sys.vasprintf_ok = false then ap2 else ap

/-- Number of invocations of the registered handler in a trace. -/
def handlerCalls (tr : List Event) : Nat :=
  tr.countP fun e => match e with
    | Event.logh _ _ _ => true
    | _ => false

/-- Number of writes to standard error in a trace. -/
def stderrWrites (tr : List Event) : Nat :=
  tr.countP fun e => match e with
    | Event.stderr _ => true
    | _ => false

/-- Number of messages forwarded to syslog in a trace. -/
def syslogCalls (tr : List Event) : Nat :=
  tr.countP fun e => match e with
    | Event.syslog _ _ => true
    | _ => false

/-- The trace `tr` delivers the message `msg` at priority `pri`, once, on one
sink: the registered handler; or standard error, as one decorated line
(`stamp`, `tag`, the message, a newline) followed by a flush; or standard
error, as the bare message and a newline followed by a flush; or syslog. -/
def Delivered (logh : Option Handler) (stamp tag : String) (pri : Int) (msg : String)
    (tr : List Event) : Prop :=
  (∃ cb, logh = some cb ∧ tr = [Event.logh cb pri msg]) ∨
  tr = [Event.stderr (stamp ++ " " ++ tag ++ " " ++ msg ++ "\n"), Event.fflush] ∨
  tr = [Event.stderr msg, Event.stderr "\n", Event.fflush] ∨
  tr = [Event.syslog pri msg]

/-- The eight priorities of `<syslog.h>`, most urgent first. -/
def severities : List Int :=
  [LOG_EMERG, LOG_ALERT, LOG_CRIT, LOG_ERR, LOG_WARNING, LOG_NOTICE, LOG_INFO, LOG_DEBUG]

/-- The layout `YYYY-MM-DDTHH:MM:SS`: nineteen characters, digits around the
separators `-`, `-`, `T`, `:`, `:`. -/
def isoShape : List Char → Bool
  | [y1, y2, y3, y4, s1, m1, m2, s2, d1, d2, t, h1, h2, c1, n1, n2, c2, e1, e2] =>
    y1.isDigit && y2.isDigit && y3.isDigit && y4.isDigit && s1 == '-' &&
    m1.isDigit && m2.isDigit && s2 == '-' && d1.isDigit && d2.isDigit && t == 'T' &&
    h1.isDigit && h2.isDigit && c1 == ':' && n1.isDigit && n2.isDigit && c2 == ':' &&
    e1.isDigit && e2.isDigit
  | _ => false

/-- The bytes a trace writes to standard error, in order. -/
def stderrBytes : List Event → String
  | [] => ""
  | Event.stderr s :: tr => s ++ stderrBytes tr
  | _ :: tr => stderrBytes tr

/-- Number of `fflush(stderr)` calls in a trace. -/
def flushes (tr : List Event) : Nat :=
  tr.countP fun e => match e with
    | Event.fflush => true
    | _ => false

/-- Whether `openlog` has been called in a trace. -/
def opened (tr : List Event) : Bool :=
  tr.any fun e => match e with
    | Event.openlog _ _ _ => true
    | _ => false

/-- Every forward to syslog in the trace comes after a call of `openlog`;
`o` tells whether `openlog` was called before the trace starts. -/
def syslogAfterOpenlog : Bool → List Event → Bool
  | _, [] => true
  | _, Event.openlog _ _ _ :: tr => syslogAfterOpenlog true tr
  | o, Event.syslog _ _ :: tr => o && syslogAfterOpenlog o tr
  | o, _ :: tr => syslogAfterOpenlog o tr

/-! ## Sequences of calls -/

/-- One call of the public API, with the answers of the system during it. -/
inductive Op where
  | init (n_debug : Int) (progname : String)
  | register (cb : Option Handler)
  | warn (asprintf_ok : Bool) (sys1 sys2 : Sys) (emsg : Option String) (ap : List Arg)
  | warnx (sys : Sys) (emsg : String) (ap : List Arg)
  | info (sys : Sys) (emsg : String) (ap : List Arg)
  | debug (sys : Sys) (emsg : String) (ap : List Arg)
  | fatal (sys : Sys) (emsg : Option String)
  | fatalx (sys : Sys) (emsg : Option String)

def Op.isInit : Op → Bool
  | Op.init _ _ => true
  | _ => false

def Op.isRegister : Op → Bool
  | Op.register _ => true
  | _ => false

/-- The calls that end the process. -/
def Op.exits : Op → Bool
  | Op.fatal _ _ => true
  | Op.fatalx _ _ => true
  | _ => false

def step (strerror : Int → String) (st : State) : Op → State × List Event
  | Op.init n_debug progname => log_init st n_debug progname
  | Op.register cb => log_register st cb
  | Op.warn ok sys1 sys2 emsg ap => log_warn strerror ok sys1 sys2 st emsg ap
  | Op.warnx sys emsg ap => log_warnx sys st emsg ap
  | Op.info sys emsg ap => log_info sys st emsg ap
  | Op.debug sys emsg ap => log_debug sys st emsg ap
  | Op.fatal sys emsg => fatal strerror sys st emsg
  | Op.fatalx sys emsg => fatalx strerror sys st emsg

/-- A program that makes the calls `ops` in order; nothing runs after a call
that ends the process. -/
def run (strerror : Int → String) : State → List Op → State × List Event
  | st, [] => (st, [])
  | st, op :: ops =>
    let r := step strerror st op
    if op.exits then r
    else
      let r2 := run strerror r.1 ops
      (r2.1, r.2 ++ r2.2)

/-! ## Test data -/

/-- An excerpt of the Linux `strerror` table. -/
def strerrorLinux (e : Int) : String :=
  if e = 0 then "Success"
  else if e = 1 then "Operation not permitted"
  else if e = 2 then "No such file or directory"
  else if e = 12 then "Cannot allocate memory"
  else if e = 25 then "Inappropriate ioctl for device"
  else if e = 28 then "No space left on device"
  else "Unknown error " ++ toString e

def tmSample : Tm :=
  { tm_sec := 30, tm_min := 13, tm_hour := 16, tm_mday := 12, tm_mon := 11, tm_year := 112 }

/-- All allocations succeed and standard error is not a terminal. -/
def sysOk : Sys :=
  { vasprintf_ok := true, asprintf_ok := true, tm := tmSample, isatty := fun _ => 0,
    isatty_errno := ENOTTY }

/-- Standard output is a terminal, the other descriptors are not. -/
def sysTty : Sys :=
  { vasprintf_ok := true, asprintf_ok := true, tm := tmSample,
    isatty := fun fd => if fd = 1 then 1 else 0, isatty_errno := ENOTTY }

/-- A local time in the year 999. -/
def tm999 : Tm :=
  { tm_sec := 30, tm_min := 13, tm_hour := 16, tm_mday := 12, tm_mon := 11, tm_year := -901 }

/-- As `sysOk`, but rendering for the handler fails. -/
def sysNoRender : Sys :=
  { vasprintf_ok := false, asprintf_ok := true, tm := tmSample, isatty := fun _ => 0,
    isatty_errno := ENOTTY }

/-- As `sysOk`, but both allocations of `vlog` fail. -/
def sysNoMemory : Sys :=
  { vasprintf_ok := false, asprintf_ok := false, tm := tmSample, isatty := fun _ => 0,
    isatty_errno := ENOTTY }

/-- As `sysOk`, but composing the decorated format fails. -/
def sysNoDecor : Sys :=
  { vasprintf_ok := true, asprintf_ok := false, tm := tmSample, isatty := fun _ => 0,
    isatty_errno := ENOTTY }

/-! ## Lemmas on the formatter -/

theorem ite_ne_percent {p : Prop} [Decidable p] {a b : Char} (ha : a ≠ '%') (hb : b ≠ '%') :
    (if p then a else b) ≠ '%' := by
  split <;> assumption

theorem digitChar_ne_percent (n : Nat) : Nat.digitChar n ≠ '%' := by
  unfold Nat.digitChar
  repeat' (first | apply ite_ne_percent | decide)

theorem toDigitsCore_no_percent (fuel : Nat) :
    ∀ (n : Nat) (ds : List Char), '%' ∉ ds → '%' ∉ Nat.toDigitsCore 10 fuel n ds := by
  induction fuel with
  | zero => intro n ds h; simpa [Nat.toDigitsCore] using h
  | succ k ih =>
    intro n ds h
    have hd : '%' ∉ Nat.digitChar (n % 10) :: ds := by
      simp only [List.mem_cons, not_or]
      exact ⟨fun e => digitChar_ne_percent _ e.symm, h⟩
    simp only [Nat.toDigitsCore]
    split_ifs
    · exact hd
    · exact ih _ _ hd

theorem nat_toString_no_percent (n : Nat) : '%' ∉ (toString n).data := by
  show '%' ∉ Nat.toDigitsCore 10 (n + 1) n []
  exact toDigitsCore_no_percent _ _ _ (by simp)

theorem int_toString_no_percent (n : Int) : '%' ∉ (toString n).data := by
  cases n with
  | ofNat m => exact nat_toString_no_percent m
  | negSucc m =>
    show '%' ∉ ("-" ++ toString (Nat.succ m)).data
    simp only [String.data_append, List.mem_append, not_or]
    exact ⟨by decide, nat_toString_no_percent _⟩

theorem vformatAux_nil (ap : List Arg) : vformatAux [] ap = [] := by
  rw [vformatAux.eq_def]

theorem vformatAux_cons_ne (c : Char) (rest : List Char) (ap : List Arg) (hc : c ≠ '%') :
    vformatAux (c :: rest) ap = c :: vformatAux rest ap := by
  rw [vformatAux.eq_def]
  simp [hc]

theorem vformatAux_percent_end (ap : List Arg) : vformatAux ['%'] ap = ['%'] := by
  rw [vformatAux.eq_def]
  simp

theorem vformatAux_percent_percent (cs : List Char) (ap : List Arg) :
    vformatAux ('%' :: '%' :: cs) ap = '%' :: vformatAux cs ap := by
  rw [vformatAux.eq_def]
  cases ap <;> simp

theorem vformatAux_no_arg (d : Char) (cs : List Char) (hd : d ≠ '%') :
    vformatAux ('%' :: d :: cs) [] = '%' :: vformatAux (d :: cs) [] := by
  rw [vformatAux.eq_def]
  simp [hd]

theorem vformatAux_conv_some (d : Char) (cs : List Char) (a : Arg) (ap : List Arg)
    (out : List Char) (hd : d ≠ '%') (h : conv d a = some out) :
    vformatAux ('%' :: d :: cs) (a :: ap) = out ++ vformatAux cs ap := by
  rw [vformatAux.eq_def]
  simp [hd, h]

theorem vformatAux_conv_none (d : Char) (cs : List Char) (a : Arg) (ap : List Arg)
    (hd : d ≠ '%') (h : conv d a = none) :
    vformatAux ('%' :: d :: cs) (a :: ap) = '%' :: vformatAux (d :: cs) (a :: ap) := by
  rw [vformatAux.eq_def]
  simp [hd, h]

theorem vformatAux_lit (l : List Char) (ap : List Arg) (h : '%' ∉ l) : vformatAux l ap = l := by
  induction l with
  | nil => simp [vformatAux]
  | cons c l ih =>
    simp only [List.mem_cons, not_or] at h
    have hc : c ≠ '%' := fun e => h.1 e.symm
    rw [vformatAux_cons_ne c l ap hc, ih h.2]

theorem vformatAux_lit_append (p f : List Char) (ap : List Arg) (h : '%' ∉ p) :
    vformatAux (p ++ f) ap = p ++ vformatAux f ap := by
  induction p with
  | nil => simp
  | cons c l ih =>
    simp only [List.mem_cons, not_or] at h
    have hc : c ≠ '%' := fun e => h.1 e.symm
    rw [List.cons_append, vformatAux_cons_ne c _ ap hc, ih h.2, List.cons_append]

theorem conv_plain (x : Char) (a : Arg) (hx : Plain x) : conv x a = none := by
  obtain ⟨_, h2, h3, h4, h5⟩ := hx
  cases a <;> simp [conv, h2, h3, h4, h5]

theorem vformatAux_append_plain (f : List Char) (ap : List Arg) (x : Char) (rest : List Char)
    (hx : Plain x) (hrest : '%' ∉ rest) :
    vformatAux (f ++ x :: rest) ap = vformatAux f ap ++ x :: rest := by
  have hlit : ∀ ap, vformatAux (x :: rest) ap = x :: rest := fun ap =>
    vformatAux_lit _ ap (by
      simp only [List.mem_cons, not_or]
      exact ⟨fun e => hx.1 e.symm, hrest⟩)
  induction f, ap using vformatAux.induct with
  | case1 ap => simpa [vformatAux_nil] using hlit ap
  | case2 ap =>
    rw [vformatAux_percent_end]
    cases ap with
    | nil => simpa [hlit] using vformatAux_no_arg x rest hx.1
    | cons a ap' =>
      simpa [hlit] using vformatAux_conv_none x rest a ap' hx.1 (conv_plain x a hx)
  | case3 cs ih =>
    simp only [List.cons_append, vformatAux_percent_percent, ih]
  | case4 d cs hd ih =>
    rw [vformatAux_no_arg d cs hd]
    simp only [List.cons_append] at ih ⊢
    rw [vformatAux_no_arg d _ hd, ih]
  | case5 cs a ap' ih =>
    simp only [List.cons_append, vformatAux_percent_percent, ih]
  | case6 d cs a ap' hd out hout ih =>
    rw [vformatAux_conv_some d cs a ap' out hd hout]
    simp only [List.cons_append]
    rw [vformatAux_conv_some d _ a ap' out hd hout, ih, List.append_assoc]
  | case7 d cs a ap' hd hnone ih =>
    rw [vformatAux_conv_none d cs a ap' hd hnone]
    simp only [List.cons_append] at ih ⊢
    rw [vformatAux_conv_none d _ a ap' hd hnone, ih]
  | case8 c rest' ap hc ih =>
    rw [vformatAux_cons_ne c rest' ap hc, List.cons_append, vformatAux_cons_ne c _ ap hc, ih,
      List.cons_append]

/-! ## Lemmas on the strings the dispatcher composes -/

theorem vformat_decorate (d t fmt : String) :
    vformat "%s %s %s\n" [Arg.str d, Arg.str t, Arg.str fmt]
      = d ++ " " ++ t ++ " " ++ fmt ++ "\n" := by
  apply String.ext
  show d.data ++ ' ' :: (t.data ++ ' ' :: (fmt.data ++ ['\n'])) = _
  simp [String.data_append]

theorem vformat_suffix (emsg e : String) :
    vformat "%s: %s" [Arg.str emsg, Arg.str e] = emsg ++ ": " ++ e := by
  apply String.ext
  show emsg.data ++ ':' :: ' ' :: (e.data ++ []) = _
  simp [String.data_append]

theorem vformat_percent_s (s : String) : vformat "%s" [Arg.str s] = s := by
  apply String.ext
  show s.data ++ [] = _
  simp

theorem vformat_newline : vformat "\n" [] = "\n" := by decide

/-- Splicing a percent-free timestamp and tag in front of a format, and a
newline behind it, leaves the expansion of the format as it was. -/
theorem vformat_spliced (d t fmt : String) (ap : List Arg)
    (hd : '%' ∉ d.data) (ht : '%' ∉ t.data) :
    vformat (d ++ " " ++ t ++ " " ++ fmt ++ "\n") ap
      = d ++ " " ++ t ++ " " ++ vformat fmt ap ++ "\n" := by
  apply String.ext
  have hp : '%' ∉ d.data ++ ' ' :: (t.data ++ [' ']) := by
    simp only [List.mem_append, List.mem_cons, List.mem_singleton, not_or]
    exact ⟨hd, by decide, ht, by decide⟩
  have hx : Plain '\n' := by unfold Plain; decide
  have h1 := vformatAux_lit_append (d.data ++ ' ' :: (t.data ++ [' '])) (fmt.data ++ ['\n']) ap hp
  have h2 := vformatAux_append_plain fmt.data ap '\n' [] hx (by simp)
  simp only [vformat, String.data_append] at *
  have e1 : d.data ++ " ".data ++ t.data ++ " ".data ++ fmt.data ++ "\n".data
      = (d.data ++ ' ' :: (t.data ++ [' '])) ++ (fmt.data ++ ['\n']) := by
    show d.data ++ [' '] ++ t.data ++ [' '] ++ fmt.data ++ ['\n'] = _
    simp
  rw [e1, h1, h2]
  show _ = d.data ++ [' '] ++ t.data ++ [' '] ++ vformatAux fmt.data ap ++ ['\n']
  simp

theorem pad2_no_percent (n : Nat) : '%' ∉ pad2 n := by
  unfold pad2
  split
  · simp only [List.mem_cons, not_or]
    exact ⟨by decide, nat_toString_no_percent n⟩
  · exact nat_toString_no_percent n

/-- The expansion of the timestamp format, before it is cut to the buffer. -/
theorem strftimeAux_iso (tm : Tm) :
    strftimeAux "%Y-%m-%dT%H:%M:%S".data tm
      = (toString (tm.tm_year + 1900)).data ++ '-' :: (pad2 (tm.tm_mon + 1) ++ '-' ::
          (pad2 tm.tm_mday ++ 'T' :: (pad2 tm.tm_hour ++ ':' :: (pad2 tm.tm_min ++ ':' ::
            (pad2 tm.tm_sec ++ []))))) := rfl

theorem date_no_percent (tm : Tm) : '%' ∉ (date tm).data := by
  intro h
  have h1 : '%' ∈ strftimeAux "%Y-%m-%dT%H:%M:%S".data tm := List.mem_of_mem_take h
  rw [strftimeAux_iso] at h1
  simp only [List.mem_append, List.mem_cons, List.not_mem_nil, or_false] at h1
  have hy := int_toString_no_percent (tm.tm_year + 1900)
  have h2 := pad2_no_percent (tm.tm_mon + 1)
  have h3 := pad2_no_percent tm.tm_mday
  have h4 := pad2_no_percent tm.tm_hour
  have h5 := pad2_no_percent tm.tm_min
  have h6 := pad2_no_percent tm.tm_sec
  have c1 : ('%' : Char) ≠ '-' := by decide
  have c2 : ('%' : Char) ≠ 'T' := by decide
  have c3 : ('%' : Char) ≠ ':' := by decide
  tauto

theorem translate_no_percent (sys : Sys) (fd priority : Int) :
    '%' ∉ (translate sys fd priority).data := by
  unfold translate
  simp only
  split_ifs <;> decide

theorem vformat_fatal_errno (emsg e : String) :
    vformat "fatal: %s: %s" [Arg.str emsg, Arg.str e] = "fatal: " ++ emsg ++ ": " ++ e := by
  apply String.ext
  show 'f' :: 'a' :: 't' :: 'a' :: 'l' :: ':' :: ' ' :: (emsg.data ++ ':' :: ' ' :: (e.data ++ []))
    = _
  simp [String.data_append]

theorem vformat_fatal (s : String) :
    vformat "fatal: %s" [Arg.str s] = "fatal: " ++ s := by
  apply String.ext
  show 'f' :: 'a' :: 't' :: 'a' :: 'l' :: ':' :: ' ' :: (s.data ++ []) = _
  simp [String.data_append]

/-- Appending `": "` and a percent-free text to a format appends the same to
its expansion. -/
theorem vformat_append_suffix (emsg e : String) (ap : List Arg) (he : '%' ∉ e.data) :
    vformat (emsg ++ ": " ++ e) ap = vformat emsg ap ++ ": " ++ e := by
  apply String.ext
  have hx : Plain ':' := by unfold Plain; decide
  have hrest : '%' ∉ ' ' :: e.data := by
    simp only [List.mem_cons, not_or]
    exact ⟨by decide, he⟩
  have h := vformatAux_append_plain emsg.data ap ':' (' ' :: e.data) hx hrest
  simp only [vformat, String.data_append]
  have e1 : emsg.data ++ ": ".data ++ e.data = emsg.data ++ ':' :: ' ' :: e.data := by
    show emsg.data ++ [':', ' '] ++ e.data = _
    simp
  rw [e1, h]
  show _ = vformatAux emsg.data ap ++ [':', ' '] ++ e.data
  simp

theorem vformat_empty (ap : List Arg) : vformat "" ap = "" := by
  apply String.ext
  show vformatAux [] ap = []
  exact vformatAux_nil ap

/-! ## Lemmas on the dispatcher -/

theorem vlog_handler (sys : Sys) (st : State) (pri : Int) (fmt : String) (ap : List Arg)
    (cb : Handler) (hh : st.logh = some cb) (hr : sys.vasprintf_ok = true) :
    vlog sys st pri fmt ap ap = (st, [Event.logh cb pri (vformat fmt ap)]) := by
  simp [vlog, hh, hr]

theorem vlog_syslog (sys : Sys) (st : State) (pri : Int) (fmt : String) (ap : List Arg)
    (hh : st.logh = none) (hd : st.debug = 0) :
    vlog sys st pri fmt ap ap = (st, [Event.syslog pri (vformat fmt ap)]) := by
  simp [vlog, hh, hd]

theorem vlog_decorated (sys : Sys) (st : State) (pri : Int) (fmt : String) (ap : List Arg)
    (hh : st.logh = none) (hd : st.debug ≠ 0) (ha : sys.asprintf_ok = true) :
    (vlog sys st pri fmt ap ap).2
      = [Event.stderr (date sys.tm ++ " " ++ translate sys STDERR_FILENO pri ++ " "
          ++ vformat fmt ap ++ "\n"), Event.fflush] := by
  simp [vlog, hh, hd, ha, vformat_decorate,
    vformat_spliced _ _ _ _ (date_no_percent _) (translate_no_percent _ _ _)]

/-- Every run of the dispatcher delivers the rendered message once, on one
sink. -/
theorem vlog_delivers (sys : Sys) (st : State) (pri : Int) (fmt : String) (ap : List Arg) :
    Delivered st.logh (date sys.tm) (translate sys STDERR_FILENO pri) pri (vformat fmt ap)
      (vlog sys st pri fmt ap ap).2 := by
  unfold Delivered
  cases hh : st.logh with
  | some cb =>
    cases hr : sys.vasprintf_ok with
    | true => left; exact ⟨cb, rfl, by rw [vlog_handler sys st pri fmt ap cb hh hr]⟩
    | false =>
      right
      cases ha : sys.asprintf_ok with
      | true =>
        left
        simp [vlog, hh, hr, ha, vformat_decorate,
          vformat_spliced _ _ _ _ (date_no_percent _) (translate_no_percent _ _ _)]
      | false =>
        right; left
        simp [vlog, hh, hr, ha, vformat_newline]
  | none =>
    right
    by_cases hd : st.debug = 0
    · right; right
      rw [vlog_syslog sys st pri fmt ap hh hd]
    · cases ha : sys.asprintf_ok with
      | true => left; exact vlog_decorated sys st pri fmt ap hh hd ha
      | false =>
        right; left
        simp [vlog, hh, hd, ha, vformat_newline]

/-- A run of `vlog` is the run in which both reads of the `va_list` yield the
arguments the output is rendered from. -/
theorem vlog_renderedArgs (sys : Sys) (st : State) (pri : Int) (fmt : String)
    (ap ap2 : List Arg) :
    vlog sys st pri fmt ap ap2
      = vlog sys st pri fmt (renderedArgs sys st ap ap2) (renderedArgs sys st ap ap2) := by
  unfold renderedArgs
  cases hh : st.logh with
  | none => simp [vlog, hh]
  | some cb =>
    cases hr : sys.vasprintf_ok with
    | true => simp [vlog, hh, hr]
    | false => simp [vlog, hh, hr]

/-- C1, as stated, fails: with a handler registered and every rendering
succeeding, a `log_warn` call whose `"%s: %s"` allocation fails invokes the
handler twice, not once. -/
theorem log_warn_invokes_handler_twice :
    sysOk.vasprintf_ok = true ∧
    handlerCalls (log_warn strerrorLinux false sysOk sysOk
      { debug := 1, logh := some 7, errno := 2 } (some "open %s") [Arg.str "f"]).2 = 2 := by
  decide

/-- C1, amended: with a handler registered and rendering succeeding, `log_warn`
(nil format, or a format whose errno-suffix allocation succeeds), `log_warnx`,
`log_info` (with `debug > 1`) and `log_debug` (with `debug > 2`) each produce
exactly one event, the invocation of the handler with the rendered message and
the severity WARNING, WARNING, WARNING, INFO, DEBUG; nothing goes to standard
error or to syslog. -/
theorem handler_gets_one_rendered_message (strerror : Int → String) (ok : Bool)
    (sys sys2 : Sys) (st : State) (cb : Handler) (emsg : String) (ap : List Arg)
    (hh : st.logh = some cb) (hr : sys.vasprintf_ok = true) :
    (log_warn strerror true sys sys2 st (some emsg) ap).2
        = [Event.logh cb LOG_WARNING (vformat (emsg ++ ": " ++ strerror st.errno) ap)] ∧
    (log_warn strerror ok sys sys2 st none ap).2
        = [Event.logh cb LOG_WARNING (strerror st.errno)] ∧
    (log_warnx sys st emsg ap).2 = [Event.logh cb LOG_WARNING (vformat emsg ap)] ∧
    (1 < st.debug →
      (log_info sys st emsg ap).2 = [Event.logh cb LOG_INFO (vformat emsg ap)]) ∧
    (2 < st.debug →
      (log_debug sys st emsg ap).2 = [Event.logh cb LOG_DEBUG (vformat emsg ap)]) := by
  refine ⟨?_, ?_, ?_, ?_, ?_⟩
  · simp [log_warn, vlog_handler _ _ _ _ _ cb hh hr, vformat_suffix]
  · simp [log_warn, logit, vlog_handler _ _ _ _ _ cb hh hr, vformat_percent_s]
  · simp [log_warnx, vlog_handler _ _ _ _ _ cb hh hr]
  · intro hd
    simp [log_info, hd, vlog_handler _ _ _ _ _ cb hh hr]
  · intro hd
    simp [log_debug, hd, vlog_handler _ _ _ _ _ cb hh hr]

theorem handler_gets_one_rendered_message_witness :
    (log_warn strerrorLinux true sysOk sysOk { debug := 3, logh := some 7, errno := 2 }
        (some "open %s") [Arg.str "f"]).2
        = [Event.logh 7 LOG_WARNING
            (vformat ("open %s" ++ ": " ++ strerrorLinux 2) [Arg.str "f"])] ∧
    (log_info sysOk { debug := 3, logh := some 7, errno := 2 } "open %s" [Arg.str "f"]).2
        = [Event.logh 7 LOG_INFO (vformat "open %s" [Arg.str "f"])] ∧
    (log_debug sysOk { debug := 3, logh := some 7, errno := 2 } "open %s" [Arg.str "f"]).2
        = [Event.logh 7 LOG_DEBUG (vformat "open %s" [Arg.str "f"])] :=
  have h := handler_gets_one_rendered_message strerrorLinux true sysOk sysOk
    { debug := 3, logh := some 7, errno := 2 } 7 "open %s" [Arg.str "f"] rfl rfl
  ⟨h.1, h.2.2.2.1 (by decide), h.2.2.2.2 (by decide)⟩

/-! ## One destination per dispatch -/

/-- C3: `log_info` delivers its message, at INFO, exactly when `debug > 1` or
a handler is installed, and `log_debug`, at DEBUG, exactly when `debug > 2` or
a handler is installed; otherwise the call returns the state it was given and
produces no event. -/
theorem info_debug_gating (sys : Sys) (st : State) (emsg : String) (ap : List Arg) :
    ((1 < st.debug ∨ st.logh ≠ none) →
      Delivered st.logh (date sys.tm) (translate sys STDERR_FILENO LOG_INFO) LOG_INFO
        (vformat emsg ap) (log_info sys st emsg ap).2) ∧
    (¬(1 < st.debug ∨ st.logh ≠ none) → log_info sys st emsg ap = (st, [])) ∧
    ((2 < st.debug ∨ st.logh ≠ none) →
      Delivered st.logh (date sys.tm) (translate sys STDERR_FILENO LOG_DEBUG) LOG_DEBUG
        (vformat emsg ap) (log_debug sys st emsg ap).2) ∧
    (¬(2 < st.debug ∨ st.logh ≠ none) → log_debug sys st emsg ap = (st, [])) := by
  have e : st.logh.isSome = true ↔ st.logh ≠ none := by
    cases st.logh <;> simp
  refine ⟨?_, ?_, ?_, ?_⟩
  · intro h
    have h' : st.debug > 1 ∨ st.logh.isSome = true := h.imp id e.mpr
    rw [log_info, if_pos h']
    exact vlog_delivers sys st LOG_INFO emsg ap
  · intro h
    have h' : ¬(st.debug > 1 ∨ st.logh.isSome = true) := fun c => h (c.imp id e.mp)
    rw [log_info, if_neg h']
  · intro h
    have h' : st.debug > 2 ∨ st.logh.isSome = true := h.imp id e.mpr
    rw [log_debug, if_pos h']
    exact vlog_delivers sys st LOG_DEBUG emsg ap
  · intro h
    have h' : ¬(st.debug > 2 ∨ st.logh.isSome = true) := fun c => h (c.imp id e.mp)
    rw [log_debug, if_neg h']

theorem info_debug_gating_witness :
    log_info sysOk { debug := 1, logh := none, errno := 0 } "up" [] =
      ({ debug := 1, logh := none, errno := 0 }, []) ∧
    log_debug sysOk { debug := 0, logh := none, errno := 0 } "up" [] =
      ({ debug := 0, logh := none, errno := 0 }, []) ∧
    Delivered (some 7) (date sysOk.tm) (translate sysOk STDERR_FILENO LOG_DEBUG) LOG_DEBUG
      (vformat "up" []) (log_debug sysOk { debug := 0, logh := some 7, errno := 0 } "up" []).2 :=
  ⟨(info_debug_gating sysOk { debug := 1, logh := none, errno := 0 } "up" []).2.1 (by decide),
   (info_debug_gating sysOk { debug := 0, logh := none, errno := 0 } "up" []).2.2.2 (by decide),
   (info_debug_gating sysOk { debug := 0, logh := some 7, errno := 0 } "up" []).2.2.1
      (Or.inr (by decide))⟩

/-! ## Warnings without a handler -/

/-- C4, as stated, fails: with no handler and `debug = 0`, a `log_warn` call
whose `"%s: %s"` allocation fails forwards two messages to syslog, not one. -/
theorem log_warn_forwards_twice :
    syslogCalls (log_warn strerrorLinux false sysOk sysOk
      { debug := 0, logh := none, errno := 28 } (some "write %s") [Arg.str "f"]).2 = 2 ∧
    stderrWrites (log_warn strerrorLinux false sysOk sysOk
      { debug := 0, logh := none, errno := 28 } (some "write %s") [Arg.str "f"]).2 = 0 := by
  decide

/-- C4, amended: with no handler and `debug = 0`, `log_warnx`, and `log_warn` with
the nil format or with a format whose errno-suffix allocation succeeds, forward
the message to syslog with priority WARNING, once, and produce no other
event. -/
theorem warn_forwards_to_syslog (strerror : Int → String) (ok : Bool) (sys sys2 : Sys)
    (st : State) (emsg : String) (ap : List Arg) (hh : st.logh = none) (hd : st.debug = 0) :
    (log_warnx sys st emsg ap).2 = [Event.syslog LOG_WARNING (vformat emsg ap)] ∧
    (log_warn strerror true sys sys2 st (some emsg) ap).2
        = [Event.syslog LOG_WARNING (vformat (emsg ++ ": " ++ strerror st.errno) ap)] ∧
    (log_warn strerror ok sys sys2 st none ap).2
        = [Event.syslog LOG_WARNING (strerror st.errno)] := by
  refine ⟨?_, ?_, ?_⟩
  · simp [log_warnx, vlog_syslog _ _ _ _ _ hh hd]
  · simp [log_warn, vlog_syslog _ _ _ _ _ hh hd, vformat_suffix]
  · simp [log_warn, logit, vlog_syslog _ _ _ _ _ hh hd, vformat_percent_s]

theorem warn_forwards_to_syslog_witness :
    (log_warnx sysOk { debug := 0, logh := none, errno := 2 } "open %s" [Arg.str "f"]).2
        = [Event.syslog LOG_WARNING (vformat "open %s" [Arg.str "f"])] ∧
    (log_warn strerrorLinux true sysOk sysOk { debug := 0, logh := none, errno := 2 }
        (some "open %s") [Arg.str "f"]).2
        = [Event.syslog LOG_WARNING
            (vformat ("open %s" ++ ": " ++ strerrorLinux 2) [Arg.str "f"])] ∧
    (log_warn strerrorLinux false sysOk sysOk { debug := 0, logh := none, errno := 2 }
        none [Arg.str "f"]).2
        = [Event.syslog LOG_WARNING (strerrorLinux 2)] :=
  warn_forwards_to_syslog strerrorLinux false sysOk sysOk { debug := 0, logh := none, errno := 2 }
    "open %s" [Arg.str "f"] rfl rfl

/-- C5, as stated, fails: with no handler, `debug = 1` and every decoration
allocation succeeding, a `log_warn` call whose `"%s: %s"` allocation fails writes
two lines to standard error (and flushes twice), not one. -/
theorem log_warn_writes_two_lines :
    sysOk.asprintf_ok = true ∧
    stderrWrites (log_warn strerrorLinux false sysOk sysOk
      { debug := 1, logh := none, errno := 2 } (some "open %s") [Arg.str "f"]).2 = 2 ∧
    (log_warn strerrorLinux false sysOk sysOk
      { debug := 1, logh := none, errno := 2 } (some "open %s") [Arg.str "f"]).2.head?
      = some (Event.stderr "2012-12-12T16:13:30 [WARN] open f\n") := by
  decide

/-- C5, amended: with no handler, `debug ≠ 0` and the decoration allocation
succeeding, `log_warnx`, and `log_warn` with the nil format or with a format
whose errno-suffix allocation succeeds, write to standard error exactly one
line, the timestamp, a space, the tag of WARNING, a space, the message rendered
from the format with the original arguments, and a newline; then flush; and
forward nothing to syslog. -/
theorem warn_writes_one_decorated_line (strerror : Int → String) (ok : Bool) (sys sys2 : Sys)
    (st : State) (emsg : String) (ap : List Arg) (hh : st.logh = none) (hd : st.debug ≠ 0)
    (ha : sys.asprintf_ok = true) :
    (log_warnx sys st emsg ap).2
        = [Event.stderr (date sys.tm ++ " " ++ translate sys STDERR_FILENO LOG_WARNING ++ " "
            ++ vformat emsg ap ++ "\n"), Event.fflush] ∧
    (log_warn strerror true sys sys2 st (some emsg) ap).2
        = [Event.stderr (date sys.tm ++ " " ++ translate sys STDERR_FILENO LOG_WARNING ++ " "
            ++ vformat (emsg ++ ": " ++ strerror st.errno) ap ++ "\n"), Event.fflush] ∧
    (log_warn strerror ok sys sys2 st none ap).2
        = [Event.stderr (date sys.tm ++ " " ++ translate sys STDERR_FILENO LOG_WARNING ++ " "
            ++ strerror st.errno ++ "\n"), Event.fflush] := by
  refine ⟨?_, ?_, ?_⟩
  · simp [log_warnx, vlog_decorated _ _ _ _ _ hh hd ha]
  · simp [log_warn, vlog_decorated _ _ _ _ _ hh hd ha, vformat_suffix]
  · simp [log_warn, logit, vlog_decorated _ _ _ _ _ hh hd ha, vformat_percent_s]

theorem warn_writes_one_decorated_line_witness :
    (log_warnx sysOk { debug := 1, logh := none, errno := 2 } "open %s" [Arg.str "f"]).2
        = [Event.stderr (date sysOk.tm ++ " " ++ translate sysOk STDERR_FILENO LOG_WARNING ++ " "
            ++ vformat "open %s" [Arg.str "f"] ++ "\n"), Event.fflush] :=
  (warn_writes_one_decorated_line strerrorLinux true sysOk sysOk
    { debug := 1, logh := none, errno := 2 } "open %s" [Arg.str "f"] rfl (by decide) rfl).1

/-! ## `fatal` and `fatalx` -/

/-- C6: for every message `emsg`, every nonzero `errno` and every state, the
trace of `fatal` is one delivery at CRITICAL of the text `"fatal: "`, `emsg`
taken literally, `": "` and `strerror(errno)`, followed by `exit(1)`. -/
theorem fatal_logs_message_and_errno (strerror : Int → String) (sys : Sys) (st : State)
    (emsg : String) (he : st.errno ≠ 0) :
    ∃ tr, (fatal strerror sys st (some emsg)).2 = tr ++ [Event.exit 1] ∧
      Delivered st.logh (date sys.tm) (translate sys STDERR_FILENO LOG_CRIT) LOG_CRIT
        ("fatal: " ++ emsg ++ ": " ++ strerror st.errno) tr := by
  refine ⟨(vlog sys st LOG_CRIT "fatal: %s: %s" [Arg.str emsg, Arg.str (strerror st.errno)]
      [Arg.str emsg, Arg.str (strerror st.errno)]).2,
    ?_, ?_⟩
  · simp [fatal, logit, he]
  · have h := vlog_delivers sys st LOG_CRIT "fatal: %s: %s"
      [Arg.str emsg, Arg.str (strerror st.errno)]
    rwa [vformat_fatal_errno] at h

theorem fatal_logs_message_and_errno_witness :
    ∃ tr, (fatal strerrorLinux sysOk { debug := 1, logh := none, errno := 28 }
        (some "disk full")).2 = tr ++ [Event.exit 1] ∧
      Delivered none (date sysOk.tm) (translate sysOk STDERR_FILENO LOG_CRIT) LOG_CRIT
        ("fatal: " ++ "disk full" ++ ": " ++ strerrorLinux 28) tr :=
  fatal_logs_message_and_errno strerrorLinux sysOk { debug := 1, logh := none, errno := 28 }
    "disk full" (by decide)

/-- C7, as stated, fails for the nil message: `fatalx(NULL)` logs `"fatal: "`
followed by the description of error 0, and so does `fatal(NULL)` when `errno`
is zero. -/
theorem fatalx_nil_logs_strerror :
    (fatalx strerrorLinux sysOk { debug := 0, logh := none, errno := 28 } none).2
      = [Event.syslog LOG_CRIT "fatal: Success", Event.exit 1] ∧
    (fatal strerrorLinux sysOk { debug := 0, logh := none, errno := 0 } none).2
      = [Event.syslog LOG_CRIT "fatal: Success", Event.exit 1] ∧
    strerrorLinux 0 = "Success" := by
  decide

/-- C7, amended: for every message `emsg` and every `errno` before the call,
`fatalx` delivers at CRITICAL exactly `"fatal: "` followed by `emsg`, and
`fatal` delivers that same text when `errno` is zero; with the nil message,
`fatalx` delivers `"fatal: "` followed by `strerror(0)` and `fatal` delivers
`"fatal: "` followed by `strerror(errno)`.  Each trace ends with `exit(1)`. -/
theorem fatalx_text (strerror : Int → String) (sys : Sys) (st : State) (emsg : String) :
    (∃ tr, (fatalx strerror sys st (some emsg)).2 = tr ++ [Event.exit 1] ∧
      Delivered st.logh (date sys.tm) (translate sys STDERR_FILENO LOG_CRIT) LOG_CRIT
        ("fatal: " ++ emsg) tr) ∧
    (st.errno = 0 →
      ∃ tr, (fatal strerror sys st (some emsg)).2 = tr ++ [Event.exit 1] ∧
        Delivered st.logh (date sys.tm) (translate sys STDERR_FILENO LOG_CRIT) LOG_CRIT
          ("fatal: " ++ emsg) tr) ∧
    (∃ tr, (fatalx strerror sys st none).2 = tr ++ [Event.exit 1] ∧
      Delivered st.logh (date sys.tm) (translate sys STDERR_FILENO LOG_CRIT) LOG_CRIT
        ("fatal: " ++ strerror 0) tr) ∧
    (∃ tr, (fatal strerror sys st none).2 = tr ++ [Event.exit 1] ∧
      Delivered st.logh (date sys.tm) (translate sys STDERR_FILENO LOG_CRIT) LOG_CRIT
        ("fatal: " ++ strerror st.errno) tr) := by
  refine ⟨?_, ?_, ?_, ?_⟩
  · refine ⟨(vlog sys { st with errno := 0 } LOG_CRIT "fatal: %s" [Arg.str emsg]
        [Arg.str emsg]).2, ?_, ?_⟩
    · simp [fatalx, fatal, logit]
    · have h := vlog_delivers sys { st with errno := 0 } LOG_CRIT "fatal: %s" [Arg.str emsg]
      rwa [vformat_fatal] at h
  · intro he
    refine ⟨(vlog sys st LOG_CRIT "fatal: %s" [Arg.str emsg] [Arg.str emsg]).2, ?_, ?_⟩
    · simp [fatal, logit, he]
    · have h := vlog_delivers sys st LOG_CRIT "fatal: %s" [Arg.str emsg]
      rwa [vformat_fatal] at h
  · refine ⟨(vlog sys { st with errno := 0 } LOG_CRIT "fatal: %s" [Arg.str (strerror 0)]
        [Arg.str (strerror 0)]).2,
      ?_, ?_⟩
    · simp [fatalx, fatal, logit]
    · have h := vlog_delivers sys { st with errno := 0 } LOG_CRIT "fatal: %s"
        [Arg.str (strerror 0)]
      rwa [vformat_fatal] at h
  · refine ⟨(vlog sys st LOG_CRIT "fatal: %s" [Arg.str (strerror st.errno)]
        [Arg.str (strerror st.errno)]).2, ?_, ?_⟩
    · simp [fatal, logit]
    · have h := vlog_delivers sys st LOG_CRIT "fatal: %s" [Arg.str (strerror st.errno)]
      rwa [vformat_fatal] at h

theorem fatalx_text_witness :
    ∃ tr, (fatal strerrorLinux sysOk { debug := 1, logh := none, errno := 0 }
        (some "disk full")).2 = tr ++ [Event.exit 1] ∧
      Delivered none (date sysOk.tm) (translate sysOk STDERR_FILENO LOG_CRIT) LOG_CRIT
        ("fatal: " ++ "disk full") tr :=
  (fatalx_text strerrorLinux sysOk { debug := 1, logh := none, errno := 0 } "disk full").2.1 rfl

/-! ## The errno suffix of `log_warn` -/

/-- C8: when the `"%s: %s"` allocation succeeds, `log_warn` with a format `emsg`
delivers, at WARNING, the rendering of `emsg` with its arguments followed by
`": "` and `strerror(errno)`.  The description `strerror` returns contains no
percent sign. -/
theorem log_warn_appends_errno (strerror : Int → String) (sys sys2 : Sys) (st : State)
    (emsg : String) (ap : List Arg) (hs : '%' ∉ (strerror st.errno).data) :
    Delivered st.logh (date sys.tm) (translate sys STDERR_FILENO LOG_WARNING) LOG_WARNING
      (vformat emsg ap ++ ": " ++ strerror st.errno)
      (log_warn strerror true sys sys2 st (some emsg) ap).2 := by
  have h := vlog_delivers sys st LOG_WARNING (emsg ++ ": " ++ strerror st.errno) ap
  rw [vformat_append_suffix emsg _ ap hs] at h
  simpa [log_warn, vformat_suffix] using h

theorem log_warn_appends_errno_witness :
    Delivered none (date sysOk.tm) (translate sysOk STDERR_FILENO LOG_WARNING) LOG_WARNING
      (vformat "open %s" [Arg.str "f"] ++ ": " ++ strerrorLinux 2)
      (log_warn strerrorLinux true sysOk sysOk { debug := 1, logh := none, errno := 2 }
        (some "open %s") [Arg.str "f"]).2 :=
  log_warn_appends_errno strerrorLinux sysOk sysOk { debug := 1, logh := none, errno := 2 }
    "open %s" [Arg.str "f"] (by decide)

/-- C9: for every `errno` and every state, `log_warn` called with the nil format
delivers one message at WARNING whose text is exactly `strerror(errno)`. -/
theorem log_warn_nil_logs_strerror (strerror : Int → String) (ok : Bool) (sys sys2 : Sys)
    (st : State) (ap : List Arg) :
    Delivered st.logh (date sys.tm) (translate sys STDERR_FILENO LOG_WARNING) LOG_WARNING
      (strerror st.errno) (log_warn strerror ok sys sys2 st none ap).2 := by
  have h := vlog_delivers sys st LOG_WARNING "%s" [Arg.str (strerror st.errno)]
  rw [vformat_percent_s] at h
  simpa [log_warn, logit] using h

/-- C10, as stated, fails: with the empty format `log_warn` hands the handler
`": "` followed by the error description, which is not what the nil format
yields. -/
theorem log_warn_empty_keeps_separator :
    (log_warn strerrorLinux true sysOk sysOk { debug := 1, logh := some 7, errno := 2 }
        (some "") []).2
      = [Event.logh 7 LOG_WARNING ": No such file or directory"] ∧
    (log_warn strerrorLinux true sysOk sysOk { debug := 1, logh := some 7, errno := 2 }
        none []).2
      = [Event.logh 7 LOG_WARNING "No such file or directory"] ∧
    strerrorLinux 2 = "No such file or directory" := by
  decide

/-- C10, amended: when the `"%s: %s"` allocation succeeds, `log_warn` called with
the empty format delivers, at WARNING, `": "` followed by `strerror(errno)`. -/
theorem log_warn_empty_format (strerror : Int → String) (sys sys2 : Sys) (st : State)
    (ap : List Arg) (hs : '%' ∉ (strerror st.errno).data) :
    Delivered st.logh (date sys.tm) (translate sys STDERR_FILENO LOG_WARNING) LOG_WARNING
      (": " ++ strerror st.errno)
      (log_warn strerror true sys sys2 st (some "") ap).2 := by
  have h := vlog_delivers sys st LOG_WARNING ("" ++ ": " ++ strerror st.errno) ap
  rw [vformat_append_suffix "" _ ap hs, vformat_empty] at h
  have e : ("" : String) ++ ": " ++ strerror st.errno = ": " ++ strerror st.errno := by
    apply String.ext
    simp [String.data_append]
  rw [e] at h
  simpa [log_warn, vformat_suffix, e] using h

theorem log_warn_empty_format_witness :
    Delivered (some 7) (date sysOk.tm) (translate sysOk STDERR_FILENO LOG_WARNING) LOG_WARNING
      (": " ++ strerrorLinux 2)
      (log_warn strerrorLinux true sysOk sysOk { debug := 1, logh := some 7, errno := 2 }
        (some "") []).2 :=
  log_warn_empty_format strerrorLinux sysOk sysOk { debug := 1, logh := some 7, errno := 2 }
    [] (by decide)

/-! ## The severity tags -/

/-- C11: on a stream that is not a terminal `translate` maps the eight
priorities to `[EMRG]`, `[ALRT]`, `[CRIT]`, `[ ERR]`, `[WARN]`, `[NOTI]`,
`[INFO]`, `[ DBG]`, each six characters wide; on any stream the eight tags are
non-empty and pairwise distinct; and every integer outside the enumeration
yields `[UNKN]` on any stream. -/
theorem translate_tags (sys : Sys) (fd : Int) (p : Int) :
    (sys.isatty fd ≠ 1 →
      severities.map (translate sys fd)
        = ["[EMRG]", "[ALRT]", "[CRIT]", "[ ERR]", "[WARN]", "[NOTI]", "[INFO]", "[ DBG]"]) ∧
    (sys.isatty fd ≠ 1 → ∀ t ∈ severities.map (translate sys fd), t.length = 6) ∧
    (severities.map (translate sys fd)).Nodup ∧
    (∀ t ∈ severities.map (translate sys fd), t ≠ "") ∧
    ((p < 0 ∨ 7 < p) → translate sys fd p = "[UNKN]") := by
  refine ⟨?_, ?_, ?_, ?_, ?_⟩
  · intro h
    simp [severities, translate, h, LOG_EMERG, LOG_ALERT, LOG_CRIT, LOG_ERR, LOG_WARNING,
      LOG_NOTICE, LOG_INFO, LOG_DEBUG]
  · intro h
    simp only [severities, translate, h, LOG_EMERG, LOG_ALERT, LOG_CRIT, LOG_ERR, LOG_WARNING,
      LOG_NOTICE, LOG_INFO, LOG_DEBUG, List.map, if_false]
    decide
  · by_cases h : sys.isatty fd = 1
    · simp only [severities, translate, h, LOG_EMERG, LOG_ALERT, LOG_CRIT, LOG_ERR, LOG_WARNING,
        LOG_NOTICE, LOG_INFO, LOG_DEBUG, List.map, if_true]
      decide
    · simp only [severities, translate, h, LOG_EMERG, LOG_ALERT, LOG_CRIT, LOG_ERR, LOG_WARNING,
        LOG_NOTICE, LOG_INFO, LOG_DEBUG, List.map, if_false]
      decide
  · by_cases h : sys.isatty fd = 1
    · simp only [severities, translate, h, LOG_EMERG, LOG_ALERT, LOG_CRIT, LOG_ERR, LOG_WARNING,
        LOG_NOTICE, LOG_INFO, LOG_DEBUG, List.map, if_true]
      decide
    · simp only [severities, translate, h, LOG_EMERG, LOG_ALERT, LOG_CRIT, LOG_ERR, LOG_WARNING,
        LOG_NOTICE, LOG_INFO, LOG_DEBUG, List.map, if_false]
      decide
  · intro hp
    have h0 : p ≠ 0 := by omega
    have h1 : p ≠ 1 := by omega
    have h2 : p ≠ 2 := by omega
    have h3 : p ≠ 3 := by omega
    have h4 : p ≠ 4 := by omega
    have h5 : p ≠ 5 := by omega
    have h6 : p ≠ 6 := by omega
    have h7 : p ≠ 7 := by omega
    simp [translate, LOG_EMERG, LOG_ALERT, LOG_CRIT, LOG_ERR, LOG_WARNING,
      LOG_NOTICE, LOG_INFO, LOG_DEBUG, h0, h1, h2, h3, h4, h5, h6, h7]

theorem translate_tags_witness :
    severities.map (translate sysOk STDERR_FILENO)
        = ["[EMRG]", "[ALRT]", "[CRIT]", "[ ERR]", "[WARN]", "[NOTI]", "[INFO]", "[ DBG]"] ∧
    translate sysOk STDERR_FILENO 8 = "[UNKN]" :=
  ⟨(translate_tags sysOk STDERR_FILENO 8).1 (by decide),
   (translate_tags sysOk STDERR_FILENO 8).2.2.2.2 (by decide)⟩

/-- C12: for every priority of the enumeration, the tag on a terminal is the tag
of a stream that is not a terminal, wrapped between a non-empty escape sequence
(it starts with ESC `[` and ends with `m`) and the reset sequence ESC `[0m`; the
tag on a stream that is not a terminal contains no escape character. -/
theorem translate_colors (sys : Sys) (fdT fdN : Int) (p : Int)
    (hT : sys.isatty fdT = 1) (hN : sys.isatty fdN ≠ 1) (hp : p ∈ severities) :
    (∃ pre : String,
      translate sys fdT p = pre ++ translate sys fdN p ++ "\x1b[0m" ∧
      pre ≠ "" ∧ pre.data.take 2 = ['\x1b', '['] ∧ pre.data.getLast? = some 'm') ∧
    '\x1b' ∉ (translate sys fdN p).data := by
  simp only [severities, List.mem_cons, List.mem_singleton, List.not_mem_nil, or_false] at hp
  rcases hp with h | h | h | h | h | h | h | h <;> subst h
  · exact ⟨⟨"\x1b[1;37;41m", by simp [translate, hT, hN], by decide, by decide,
      by decide⟩, by simp [translate, hN]⟩
  · exact ⟨⟨"\x1b[1;37;41m", by simp [translate, hT, hN]; decide, by decide, by decide,
      by decide⟩, by simp [translate, hN]; decide⟩
  · exact ⟨⟨"\x1b[1;37;41m", by simp [translate, hT, hN]; decide, by decide, by decide,
      by decide⟩, by simp [translate, hN]; decide⟩
  · exact ⟨⟨"\x1b[1;31m", by simp [translate, hT, hN]; decide, by decide, by decide,
      by decide⟩, by simp [translate, hN]; decide⟩
  · exact ⟨⟨"\x1b[1;33m", by simp [translate, hT, hN]; decide, by decide, by decide,
      by decide⟩, by simp [translate, hN]; decide⟩
  · exact ⟨⟨"\x1b[1;34m", by simp [translate, hT, hN]; decide, by decide, by decide,
      by decide⟩, by simp [translate, hN]; decide⟩
  · exact ⟨⟨"\x1b[1;34m", by simp [translate, hT, hN]; decide, by decide, by decide,
      by decide⟩, by simp [translate, hN]; decide⟩
  · exact ⟨⟨"\x1b[1;30m", by simp [translate, hT, hN]; decide, by decide, by decide,
      by decide⟩, by simp [translate, hN]; decide⟩

theorem translate_colors_witness :
    (∃ pre : String,
      translate sysTty 1 LOG_WARNING = pre ++ translate sysTty 2 LOG_WARNING ++ "\x1b[0m" ∧
      pre ≠ "" ∧ pre.data.take 2 = ['\x1b', '['] ∧ pre.data.getLast? = some 'm') ∧
    '\x1b' ∉ (translate sysTty 2 LOG_WARNING).data :=
  translate_colors sysTty 1 2 LOG_WARNING (by decide) (by decide) (by decide)

/-! ## Termination by `fatal` and `fatalx` -/

/-- C13: for every message, nil or not, every `errno`, every state and every
allocation outcome, the trace of `fatal` and of `fatalx` is exactly one delivery
at CRITICAL followed by `exit(1)`, which is the last event and the only exit. -/
theorem fatal_dispatches_once_then_exits (strerror : Int → String) (sys : Sys) (st : State)
    (emsg : Option String) :
    (∃ tr msg, (fatal strerror sys st emsg).2 = tr ++ [Event.exit 1] ∧
      Delivered st.logh (date sys.tm) (translate sys STDERR_FILENO LOG_CRIT) LOG_CRIT msg tr ∧
      ∀ c, Event.exit c ∉ tr) ∧
    (∃ tr msg, (fatalx strerror sys st emsg).2 = tr ++ [Event.exit 1] ∧
      Delivered st.logh (date sys.tm) (translate sys STDERR_FILENO LOG_CRIT) LOG_CRIT msg tr ∧
      ∀ c, Event.exit c ∉ tr) := by
  have key : ∀ (st : State) (fmt : String) (ap : List Arg),
      ∃ tr msg, (vlog sys st LOG_CRIT fmt ap ap).2 ++ [Event.exit 1] = tr ++ [Event.exit 1] ∧
        Delivered st.logh (date sys.tm) (translate sys STDERR_FILENO LOG_CRIT) LOG_CRIT msg tr ∧
        ∀ c, Event.exit c ∉ tr := by
    intro st fmt ap
    refine ⟨_, vformat fmt ap, rfl, vlog_delivers sys st LOG_CRIT fmt ap, ?_⟩
    intro c
    rcases vlog_delivers sys st LOG_CRIT fmt ap with ⟨cb, _, e⟩ | e | e | e <;> rw [e] <;> simp
  constructor
  · cases emsg with
    | none => simpa [fatal, logit] using key st _ _
    | some m =>
      by_cases he : st.errno = 0
      · simpa [fatal, logit, he] using key st _ _
      · simpa [fatal, logit, he] using key st _ _
  · cases emsg with
    | none => simpa [fatalx, fatal, logit] using key { st with errno := 0 } _ _
    | some m => simpa [fatalx, fatal, logit] using key { st with errno := 0 } _ _

/-! ## Who changes the state -/

theorem vlog_frame (sys : Sys) (st : State) (pri : Int) (fmt : String) (ap : List Arg) :
    (vlog sys st pri fmt ap ap).1.debug = st.debug ∧
    (vlog sys st pri fmt ap ap).1.logh = st.logh := by
  unfold vlog
  cases hh : st.logh <;> simp only <;> split_ifs <;> simp [hh]

theorem log_warn_frame (strerror : Int → String) (ok : Bool) (sys1 sys2 : Sys) (st : State)
    (emsg : Option String) (ap : List Arg) :
    (log_warn strerror ok sys1 sys2 st emsg ap).1.debug = st.debug ∧
    (log_warn strerror ok sys1 sys2 st emsg ap).1.logh = st.logh := by
  cases emsg with
  | none => simpa [log_warn, logit] using vlog_frame sys1 st LOG_WARNING _ _
  | some m =>
    cases ok with
    | true => simpa [log_warn] using vlog_frame sys1 st LOG_WARNING _ ap
    | false =>
      have h1 := vlog_frame sys1 { st with errno := ENOMEM } LOG_WARNING m ap
      have h2 := vlog_frame sys2 (vlog sys1 { st with errno := ENOMEM } LOG_WARNING m ap ap).1
        LOG_WARNING "%s"
        [Arg.str (strerror (vlog sys1 { st with errno := ENOMEM } LOG_WARNING m ap ap).1.errno)]
      simp only [log_warn, logit, Bool.false_eq_true, if_false]
      exact ⟨h2.1.trans h1.1, h2.2.trans h1.2⟩

theorem log_info_frame (sys : Sys) (st : State) (emsg : String) (ap : List Arg) :
    (log_info sys st emsg ap).1.debug = st.debug ∧ (log_info sys st emsg ap).1.logh = st.logh := by
  unfold log_info
  split_ifs
  · exact vlog_frame sys st LOG_INFO emsg ap
  · exact ⟨rfl, rfl⟩

theorem log_debug_frame (sys : Sys) (st : State) (emsg : String) (ap : List Arg) :
    (log_debug sys st emsg ap).1.debug = st.debug ∧
    (log_debug sys st emsg ap).1.logh = st.logh := by
  unfold log_debug
  split_ifs
  · exact vlog_frame sys st LOG_DEBUG emsg ap
  · exact ⟨rfl, rfl⟩

theorem fatal_frame (strerror : Int → String) (sys : Sys) (st : State) (emsg : Option String) :
    (fatal strerror sys st emsg).1.debug = st.debug ∧
    (fatal strerror sys st emsg).1.logh = st.logh := by
  cases emsg with
  | none => simpa [fatal, logit] using vlog_frame sys st LOG_CRIT _ _
  | some m =>
    by_cases he : st.errno = 0
    · simpa [fatal, logit, he] using vlog_frame sys st LOG_CRIT _ _
    · simpa [fatal, logit, he] using vlog_frame sys st LOG_CRIT _ _

/-- A call other than `log_register` leaves the handler as it was. -/
theorem step_logh (strerror : Int → String) (st : State) (op : Op)
    (h : op.isRegister = false) : (step strerror st op).1.logh = st.logh := by
  cases op with
  | init n p => rfl
  | register cb => simp [Op.isRegister] at h
  | warn ok sys1 sys2 emsg ap => exact (log_warn_frame strerror ok sys1 sys2 st emsg ap).2
  | warnx sys emsg ap => exact (vlog_frame sys st LOG_WARNING emsg ap).2
  | info sys emsg ap => exact (log_info_frame sys st emsg ap).2
  | debug sys emsg ap => exact (log_debug_frame sys st emsg ap).2
  | fatal sys emsg => exact (fatal_frame strerror sys st emsg).2
  | fatalx sys emsg => exact (fatal_frame strerror sys { st with errno := 0 } emsg).2

/-- A call other than `log_init` leaves `debug` as it was. -/
theorem step_debug (strerror : Int → String) (st : State) (op : Op)
    (h : op.isInit = false) : (step strerror st op).1.debug = st.debug := by
  cases op with
  | init n p => simp [Op.isInit] at h
  | register cb => rfl
  | warn ok sys1 sys2 emsg ap => exact (log_warn_frame strerror ok sys1 sys2 st emsg ap).1
  | warnx sys emsg ap => exact (vlog_frame sys st LOG_WARNING emsg ap).1
  | info sys emsg ap => exact (log_info_frame sys st emsg ap).1
  | debug sys emsg ap => exact (log_debug_frame sys st emsg ap).1
  | fatal sys emsg => exact (fatal_frame strerror sys st emsg).1
  | fatalx sys emsg => exact (fatal_frame strerror sys { st with errno := 0 } emsg).1

theorem run_logh (strerror : Int → String) (ops : List Op) :
    ∀ st : State, (∀ op ∈ ops, op.isRegister = false) →
      (run strerror st ops).1.logh = st.logh := by
  induction ops with
  | nil => intro st _; rfl
  | cons op ops ih =>
    intro st h
    have h1 := step_logh strerror st op (h op (List.mem_cons_self _ _))
    have h2 := ih (step strerror st op).1 (fun o ho => h o (List.mem_cons_of_mem _ ho))
    simp only [run]
    split_ifs
    · exact h1
    · exact h2.trans h1

/-- C14: `log_init` changes `debug` and nothing else; `log_register` sets the
handler to its argument (clearing it for NULL) and changes nothing else; none
of `log_warn`, `log_warnx`, `log_info`, `log_debug` changes `debug` or the
handler; hence after `log_register(cb)` the handler is still `cb` after any
sequence of calls that does not contain `log_register`. -/
theorem handler_changes_only_by_register (strerror : Int → String) (st : State) (n_debug : Int)
    (progname : String) (cb : Option Handler) (ok : Bool) (sys sys2 : Sys)
    (emsg : Option String) (fmt : String) (ap : List Arg) (ops : List Op) :
    (log_init st n_debug progname).1 = { st with debug := n_debug } ∧
    (log_register st cb).1 = { st with logh := cb } ∧
    ((log_warn strerror ok sys sys2 st emsg ap).1.debug = st.debug ∧
      (log_warn strerror ok sys sys2 st emsg ap).1.logh = st.logh) ∧
    ((log_warnx sys st fmt ap).1.debug = st.debug ∧
      (log_warnx sys st fmt ap).1.logh = st.logh) ∧
    ((log_info sys st fmt ap).1.debug = st.debug ∧
      (log_info sys st fmt ap).1.logh = st.logh) ∧
    ((log_debug sys st fmt ap).1.debug = st.debug ∧
      (log_debug sys st fmt ap).1.logh = st.logh) ∧
    ((∀ op ∈ ops, op.isRegister = false) →
      (run strerror (log_register st cb).1 ops).1.logh = cb) := by
  refine ⟨rfl, rfl, log_warn_frame strerror ok sys sys2 st emsg ap,
    vlog_frame sys st LOG_WARNING fmt ap, log_info_frame sys st fmt ap,
    log_debug_frame sys st fmt ap, ?_⟩
  intro h
  exact run_logh strerror ops (log_register st cb).1 h

theorem handler_changes_only_by_register_witness :
    (run strerrorLinux (log_register State.init (some 7)).1
      [Op.init 0 "lldpd", Op.warnx sysOk "up" [], Op.warn false sysOk sysOk (some "x") [],
        Op.debug sysOk "y" []]).1.logh = some 7 :=
  (handler_changes_only_by_register strerrorLinux State.init 0 "lldpd" (some 7) true sysOk sysOk
    none "up" []
    [Op.init 0 "lldpd", Op.warnx sysOk "up" [], Op.warn false sysOk sysOk (some "x") [],
      Op.debug sysOk "y" []]).2.2.2.2.2.2 (by decide)

/-! ## The timestamp -/

theorem toDigitsCore_small (f n : Nat) (ds : List Char) (h : n < 10) :
    Nat.toDigitsCore 10 (f + 1) n ds = Nat.digitChar n :: ds := by
  simp [Nat.toDigitsCore, Nat.div_eq_of_lt h, Nat.mod_eq_of_lt h]

theorem toDigitsCore_step (f n : Nat) (ds : List Char) (h : 10 ≤ n) :
    Nat.toDigitsCore 10 (f + 1) n ds
      = Nat.toDigitsCore 10 f (n / 10) (Nat.digitChar (n % 10) :: ds) := by
  have h0 : n / 10 ≠ 0 := by omega
  simp [Nat.toDigitsCore, h0]

theorem digitChar_isDigit (k : Nat) (h : k < 10) : (Nat.digitChar k).isDigit = true := by
  interval_cases k <;> decide

theorem nat_toString_data (n : Nat) : (toString n).data = Nat.toDigitsCore 10 (n + 1) n [] :=
  rfl

theorem toString_one_digit (n : Nat) (h : n < 10) :
    (toString n).data = [Nat.digitChar n] := by
  rw [nat_toString_data, toDigitsCore_small n n [] h]

theorem toString_two_digits (n : Nat) (h1 : 10 ≤ n) (h2 : n < 100) :
    (toString n).data = [Nat.digitChar (n / 10), Nat.digitChar (n % 10)] := by
  obtain ⟨f, rfl⟩ : ∃ f, n = f + 1 := ⟨n - 1, by omega⟩
  rw [nat_toString_data, toDigitsCore_step (f + 1) (f + 1) [] h1,
    toDigitsCore_small f ((f + 1) / 10) _ (by omega)]

theorem toString_four_digits (n : Nat) (h1 : 1000 ≤ n) (h2 : n < 10000) :
    (toString n).data = [Nat.digitChar (n / 1000), Nat.digitChar (n / 100 % 10),
      Nat.digitChar (n / 10 % 10), Nat.digitChar (n % 10)] := by
  obtain ⟨f, rfl⟩ : ∃ f, n = f + 3 := ⟨n - 3, by omega⟩
  rw [nat_toString_data, toDigitsCore_step (f + 3) (f + 3) [] (by omega),
    toDigitsCore_step (f + 2) ((f + 3) / 10) _ (by omega),
    toDigitsCore_step (f + 1) ((f + 3) / 10 / 10) _ (by omega),
    toDigitsCore_small f ((f + 3) / 10 / 10 / 10) _ (by omega)]
  have e1 : (f + 3) / 10 / 10 / 10 = (f + 3) / 1000 := by omega
  have e2 : (f + 3) / 10 / 10 = (f + 3) / 100 := by omega
  rw [e1, e2]

/-- Two digits for a number below one hundred. -/
theorem pad2_two_digits (n : Nat) (h : n < 100) :
    ∃ a b : Char, pad2 n = [a, b] ∧ a.isDigit = true ∧ b.isDigit = true := by
  unfold pad2
  split_ifs with h10
  · exact ⟨'0', Nat.digitChar n, by rw [toString_one_digit n h10], by decide,
      digitChar_isDigit n h10⟩
  · exact ⟨Nat.digitChar (n / 10), Nat.digitChar (n % 10),
      toString_two_digits n (by omega) h, digitChar_isDigit _ (by omega),
      digitChar_isDigit _ (by omega)⟩

/-- Four digits for a year from 1000 to 9999. -/
theorem year_four_digits (y : Int) (h1 : 1000 ≤ y) (h2 : y ≤ 9999) :
    ∃ a b c d : Char, (toString y).data = [a, b, c, d] ∧ a.isDigit = true ∧ b.isDigit = true ∧
      c.isDigit = true ∧ d.isDigit = true := by
  obtain ⟨n, rfl⟩ : ∃ n : Nat, y = (n : Int) := ⟨y.toNat, by omega⟩
  have hn1 : 1000 ≤ n := by omega
  have hn2 : n < 10000 := by omega
  refine ⟨_, _, _, _, show (toString n).data = _ from toString_four_digits n hn1 hn2,
    digitChar_isDigit _ (by omega), digitChar_isDigit _ (by omega),
    digitChar_isDigit _ (by omega), digitChar_isDigit _ (by omega)⟩

/-- C15, as stated, fails: `%Y` is the year as a decimal number, so for a local
time in the year 999 `date` returns eighteen characters, not nineteen. -/
theorem date_short_before_year_1000 :
    tm999.tm_year + 1900 = 999 ∧
    date tm999 = "999-12-12T16:13:30" ∧
    (date tm999).length = 18 ∧
    isoShape (date tm999).data = false := by
  decide

/-- C15, amended: for every local time whose year lies between 1000 and 9999, with
the other fields in the ranges `localtime` produces, `date` returns exactly
nineteen characters laid out as `YYYY-MM-DDTHH:MM:SS`. -/
theorem date_iso_shape (tm : Tm)
    (hy1 : 1000 ≤ tm.tm_year + 1900) (hy2 : tm.tm_year + 1900 ≤ 9999)
    (hmon : tm.tm_mon ≤ 11) (hday : tm.tm_mday ≤ 31) (hhour : tm.tm_hour ≤ 23)
    (hmin : tm.tm_min ≤ 59) (hsec : tm.tm_sec ≤ 60) :
    (date tm).length = 19 ∧ isoShape (date tm).data = true := by
  obtain ⟨y1, y2, y3, y4, ey, hy⟩ := year_four_digits _ hy1 hy2
  obtain ⟨m1, m2, em, hm⟩ := pad2_two_digits (tm.tm_mon + 1) (by omega)
  obtain ⟨d1, d2, ed, hd⟩ := pad2_two_digits tm.tm_mday (by omega)
  obtain ⟨h1, h2, eh, hh⟩ := pad2_two_digits tm.tm_hour (by omega)
  obtain ⟨n1, n2, en, hn⟩ := pad2_two_digits tm.tm_min (by omega)
  obtain ⟨s1, s2, es, hs⟩ := pad2_two_digits tm.tm_sec (by omega)
  have e : (date tm).data = [y1, y2, y3, y4, '-', m1, m2, '-', d1, d2, 'T', h1, h2, ':',
      n1, n2, ':', s1, s2] := by
    show List.take 19 (strftimeAux "%Y-%m-%dT%H:%M:%S".data tm) = _
    rw [strftimeAux_iso, ey, em, ed, eh, en, es]
    rfl
  constructor
  · show (date tm).data.length = 19
    rw [e]; rfl
  · rw [e]
    simp [isoShape, hy, hm, hd, hh, hn, hs]

theorem date_iso_shape_witness :
    (date tmSample).length = 19 ∧ isoShape (date tmSample).data = true :=
  date_iso_shape tmSample (by decide) (by decide) (by decide) (by decide) (by decide)
    (by decide) (by decide)

/-! ## The fallback to standard error -/

theorem vlog_fallback (sys : Sys) (st : State) (pri : Int) (fmt : String) (ap : List Arg)
    (hb : (st.logh = none ∧ st.debug ≠ 0) ∨ (st.logh ≠ none ∧ sys.vasprintf_ok = false)) :
    (sys.asprintf_ok = true →
      (vlog sys st pri fmt ap ap).2
        = [Event.stderr (date sys.tm ++ " " ++ translate sys STDERR_FILENO pri ++ " "
            ++ vformat fmt ap ++ "\n"), Event.fflush]) ∧
    (sys.asprintf_ok = false →
      (vlog sys st pri fmt ap ap).2
        = [Event.stderr (vformat fmt ap), Event.stderr "\n", Event.fflush]) := by
  have hs := vformat_spliced (date sys.tm) (translate sys STDERR_FILENO pri) fmt ap
    (date_no_percent _) (translate_no_percent _ _ _)
  rcases hb with ⟨hh, hd⟩ | ⟨hh, hr⟩
  · constructor
    · intro ha
      exact vlog_decorated sys st pri fmt ap hh hd ha
    · intro ha
      simp [vlog, hh, hd, ha, vformat_newline]
  · obtain ⟨cb, hcb⟩ := Option.ne_none_iff_exists'.mp hh
    constructor
    · intro ha
      simp [vlog, hcb, hr, ha, vformat_decorate, hs]
    · intro ha
      simp [vlog, hcb, hr, ha, vformat_newline]

/-- A run of `vlog` forwards to syslog exactly when no handler is registered and
`debug = 0`. -/
theorem vlog_syslog_iff (sys : Sys) (st : State) (pri : Int) (fmt : String) (ap : List Arg) :
    syslogCalls (vlog sys st pri fmt ap ap).2 ≠ 0 ↔ (st.logh = none ∧ st.debug = 0) := by
  constructor
  · intro hne
    by_contra hcon
    apply hne
    have hb : (st.logh = none ∧ st.debug ≠ 0) ∨ (st.logh ≠ none ∧ sys.vasprintf_ok = false)
        ∨ (∃ c, st.logh = some c ∧ sys.vasprintf_ok = true) := by
      cases h1 : st.logh with
      | none =>
        left
        exact ⟨rfl, fun h0 => hcon ⟨h1, h0⟩⟩
      | some c =>
        right
        cases h2 : sys.vasprintf_ok with
        | true => right; exact ⟨c, rfl, rfl⟩
        | false => left; exact ⟨by simp, rfl⟩
    rcases hb with h | h | ⟨c, h1, h2⟩
    · have hf2 := vlog_fallback sys st pri fmt ap (Or.inl h)
      cases ha : sys.asprintf_ok with
      | true => rw [hf2.1 ha]; simp [syslogCalls]
      | false => rw [hf2.2 ha]; simp [syslogCalls]
    · have hf2 := vlog_fallback sys st pri fmt ap (Or.inr h)
      cases ha : sys.asprintf_ok with
      | true => rw [hf2.1 ha]; simp [syslogCalls]
      | false => rw [hf2.2 ha]; simp [syslogCalls]
    · rw [vlog_handler sys st pri fmt ap c h1 h2]; simp [syslogCalls]
  · rintro ⟨h1, h2⟩
    rw [vlog_syslog sys st pri fmt ap h1 h2]
    simp [syslogCalls]

/-- After a failed `vasprintf` the run of `vlog` invokes no handler and forwards
nothing to syslog, whatever `debug` is; it writes to standard error the
decorated line or, when the decoration fails too, the bare text and a newline,
rendered from what the second read of the `va_list` yields. -/
theorem vlog_render_failure (sys : Sys) (st : State) (pri : Int) (fmt : String)
    (ap ap2 : List Arg) (cb : Handler) (hh : st.logh = some cb)
    (hr : sys.vasprintf_ok = false) :
    handlerCalls (vlog sys st pri fmt ap ap2).2 = 0 ∧
    syslogCalls (vlog sys st pri fmt ap ap2).2 = 0 ∧
    (sys.asprintf_ok = true →
      (vlog sys st pri fmt ap ap2).2
        = [Event.stderr (date sys.tm ++ " " ++ translate sys STDERR_FILENO pri ++ " "
            ++ vformat fmt ap2 ++ "\n"), Event.fflush]) ∧
    (sys.asprintf_ok = false →
      (vlog sys st pri fmt ap ap2).2
        = [Event.stderr (vformat fmt ap2), Event.stderr "\n", Event.fflush]) := by
  have hra : renderedArgs sys st ap ap2 = ap2 := by simp [renderedArgs, hh, hr]
  have hf := vlog_fallback sys st pri fmt ap2 (Or.inr ⟨by simp [hh], hr⟩)
  rw [vlog_renderedArgs, hra]
  refine ⟨?_, ?_, hf.1, hf.2⟩
  · cases ha : sys.asprintf_ok with
    | true => rw [hf.1 ha]; simp [handlerCalls]
    | false => rw [hf.2 ha]; simp [handlerCalls]
  · cases ha : sys.asprintf_ok with
    | true => rw [hf.1 ha]; simp [syslogCalls]
    | false => rw [hf.2 ha]; simp [syslogCalls]

/-- Whenever `vlog` takes the branch to standard error, the trace is one or more
writes followed by exactly one flush, which is the last event; when composing
the decorated format fails, the bytes written are the format rendered from the
arguments the `va_list` yields at that read, followed by one newline. -/
theorem vlog_stderr_shape (sys : Sys) (st : State) (pri : Int) (fmt : String)
    (ap ap2 : List Arg)
    (hb : (st.logh = none ∧ st.debug ≠ 0) ∨ (st.logh ≠ none ∧ sys.vasprintf_ok = false)) :
    (sys.asprintf_ok = false →
      stderrBytes (vlog sys st pri fmt ap ap2).2
        = vformat fmt (renderedArgs sys st ap ap2) ++ "\n") ∧
    (∃ ws : List String, ws ≠ [] ∧
      (vlog sys st pri fmt ap ap2).2 = ws.map Event.stderr ++ [Event.fflush]) ∧
    flushes (vlog sys st pri fmt ap ap2).2 = 1 := by
  have hf := vlog_fallback sys st pri fmt (renderedArgs sys st ap ap2) hb
  rw [vlog_renderedArgs]
  refine ⟨?_, ?_, ?_⟩
  · intro ha
    rw [hf.2 ha]
    apply String.ext
    simp [stderrBytes, String.data_append]
  · cases ha : sys.asprintf_ok with
    | true => exact ⟨[_], by simp, by rw [hf.1 ha]; rfl⟩
    | false => exact ⟨[_, _], by simp, by rw [hf.2 ha]; rfl⟩
  · cases ha : sys.asprintf_ok with
    | true => rw [hf.1 ha]; simp [flushes]
    | false => rw [hf.2 ha]; simp [flushes]

/-- C16, at a failing input: a handler is registered, `debug = 0`, and `vasprintf`
fails for the call `log_warnx("x=%d y=%d", 3, 4)`.  The handler is not invoked,
nothing goes to syslog and a line goes to standard error, but the line is
rendered from the `va_list` that `vasprintf` has consumed (here its second read
yields 4 and 0), so it is not the message `x=3 y=4`. -/
theorem vlog_fallback_reads_consumed_va_list :
    (vlog sysNoRender { debug := 0, logh := some 7, errno := 0 } LOG_WARNING "x=%d y=%d"
        [Arg.int 3, Arg.int 4] [Arg.int 4, Arg.int 0]).2
      = [Event.stderr "2012-12-12T16:13:30 [WARN] x=4 y=0\n", Event.fflush] ∧
    vformat "x=%d y=%d" [Arg.int 3, Arg.int 4] = "x=3 y=4" := by
  decide

/-- C17, at a failing input: a handler is registered, and both `vasprintf` and the
composition of the decorated format fail for the call
`log_warnx("x=%d y=%d", 3, 4)`.  The bytes written to standard error are the raw
format rendered from the consumed `va_list` (here its second read yields 4 and
0) and a newline, followed by one flush; they are not the message `x=3 y=4`
and a newline. -/
theorem raw_fallback_reads_consumed_va_list :
    (vlog sysNoMemory { debug := 1, logh := some 7, errno := 0 } LOG_WARNING "x=%d y=%d"
        [Arg.int 3, Arg.int 4] [Arg.int 4, Arg.int 0]).2
      = [Event.stderr "x=4 y=0", Event.stderr "\n", Event.fflush] ∧
    stderrBytes (vlog sysNoMemory { debug := 1, logh := some 7, errno := 0 } LOG_WARNING
        "x=%d y=%d" [Arg.int 3, Arg.int 4] [Arg.int 4, Arg.int 0]).2 = "x=4 y=0\n" ∧
    vformat "x=%d y=%d" [Arg.int 3, Arg.int 4] ++ "\n" = "x=3 y=4\n" := by
  decide

/-! ## Syslog is opened before it is used -/

theorem opened_append (a b : List Event) : opened (a ++ b) = (opened a || opened b) := by
  simp [opened, List.any_append]

theorem syslogAfterOpenlog_append (a : List Event) :
    ∀ (o : Bool) (b : List Event),
      syslogAfterOpenlog o (a ++ b)
        = (syslogAfterOpenlog o a && syslogAfterOpenlog (o || opened a) b) := by
  induction a with
  | nil => intro o b; simp [syslogAfterOpenlog, opened]
  | cons e a ih =>
    intro o b
    cases e <;> simp [syslogAfterOpenlog, opened, ih, Bool.and_assoc]

theorem syslogAfterOpenlog_of_no_syslog (tr : List Event) :
    ∀ o : Bool, syslogCalls tr = 0 → syslogAfterOpenlog o tr = true := by
  induction tr with
  | nil => intro o _; rfl
  | cons e tr ih =>
    intro o h
    cases e <;> simp only [syslogAfterOpenlog] <;>
      first
      | (apply ih; simpa [syslogCalls, List.countP_cons] using h)
      | simp [syslogCalls, List.countP_cons] at h

/-- A dispatch forwards to syslog only after `openlog`, as long as `openlog` has
been called whenever `debug = 0`. -/
theorem vlog_ordered (sys : Sys) (st : State) (pri : Int) (fmt : String) (ap : List Arg)
    (o : Bool) (hi : st.debug = 0 → o = true) :
    syslogAfterOpenlog o (vlog sys st pri fmt ap ap).2 = true := by
  by_cases h : st.logh = none ∧ st.debug = 0
  · rw [vlog_syslog sys st pri fmt ap h.1 h.2]
    simp [syslogAfterOpenlog, hi h.2]
  · apply syslogAfterOpenlog_of_no_syslog
    by_contra hne
    exact h ((vlog_syslog_iff sys st pri fmt ap).mp hne)

theorem vlog_no_syslog (sys : Sys) (st : State) (pri : Int) (fmt : String) (ap : List Arg)
    (hd : st.debug ≠ 0) : syslogCalls (vlog sys st pri fmt ap ap).2 = 0 := by
  by_contra hne
  exact hd ((vlog_syslog_iff sys st pri fmt ap).mp hne).2

theorem step_ordered (strerror : Int → String) (st : State) (op : Op) (o : Bool)
    (hi : st.debug = 0 → o = true) :
    syslogAfterOpenlog o (step strerror st op).2 = true := by
  cases op with
  | init n p =>
    simp only [step, log_init]
    split_ifs <;> simp [syslogAfterOpenlog]
  | register cb => rfl
  | warn ok sys1 sys2 emsg ap =>
    cases emsg with
    | none => simpa [step, log_warn, logit] using vlog_ordered sys1 st LOG_WARNING _ _ o hi
    | some m =>
      cases ok with
      | true => simpa [step, log_warn] using vlog_ordered sys1 st LOG_WARNING _ ap o hi
      | false =>
        have h1 := vlog_ordered sys1 { st with errno := ENOMEM } LOG_WARNING m ap o hi
        have hf := vlog_frame sys1 { st with errno := ENOMEM } LOG_WARNING m ap
        have h2 := vlog_ordered sys2 (vlog sys1 { st with errno := ENOMEM } LOG_WARNING m ap ap).1
          LOG_WARNING "%s"
          [Arg.str (strerror (vlog sys1 { st with errno := ENOMEM } LOG_WARNING m ap ap).1.errno)]
          (o || opened (vlog sys1 { st with errno := ENOMEM } LOG_WARNING m ap ap).2)
          (fun h0 => by
            have h3 : st.debug = 0 := by rw [← hf.1]; exact h0
            simp [hi h3])
        simp only [step, log_warn, logit, Bool.false_eq_true, if_false,
          syslogAfterOpenlog_append, h1, h2, Bool.and_self]
  | warnx sys emsg ap => exact vlog_ordered sys st LOG_WARNING emsg ap o hi
  | info sys emsg ap =>
    simp only [step, log_info]
    split_ifs
    · exact vlog_ordered sys st LOG_INFO emsg ap o hi
    · rfl
  | debug sys emsg ap =>
    simp only [step, log_debug]
    split_ifs
    · exact vlog_ordered sys st LOG_DEBUG emsg ap o hi
    · rfl
  | fatal sys emsg =>
    have key : ∀ (fmt : String) (ap : List Arg),
        syslogAfterOpenlog o ((vlog sys st LOG_CRIT fmt ap ap).2 ++ [Event.exit 1]) = true := by
      intro fmt ap
      rw [syslogAfterOpenlog_append, vlog_ordered sys st LOG_CRIT fmt ap o hi]
      simp [syslogAfterOpenlog]
    cases emsg with
    | none => simpa [step, fatal, logit] using key _ _
    | some m =>
      by_cases he : st.errno = 0
      · simpa [step, fatal, logit, he] using key _ _
      · simpa [step, fatal, logit, he] using key _ _
  | fatalx sys emsg =>
    have key : ∀ (fmt : String) (ap : List Arg),
        syslogAfterOpenlog o ((vlog sys { st with errno := 0 } LOG_CRIT fmt ap ap).2
          ++ [Event.exit 1]) = true := by
      intro fmt ap
      rw [syslogAfterOpenlog_append, vlog_ordered sys { st with errno := 0 } LOG_CRIT fmt ap o hi]
      simp [syslogAfterOpenlog]
    cases emsg with
    | none => simpa [step, fatalx, fatal, logit] using key _ _
    | some m => simpa [step, fatalx, fatal, logit] using key _ _

/-- After a call, `debug = 0` still implies that `openlog` has been called. -/
theorem step_invariant (strerror : Int → String) (st : State) (op : Op) (o : Bool)
    (hi : st.debug = 0 → o = true) :
    (step strerror st op).1.debug = 0 → (o || opened (step strerror st op).2) = true := by
  by_cases hop : op.isInit = false
  · intro h0
    rw [step_debug strerror st op hop] at h0
    simp [hi h0]
  · cases op with
    | init n p =>
      intro h0
      have hn : n = 0 := h0
      simp [step, log_init, hn, opened]
    | register cb => simp [Op.isInit] at hop
    | warn ok sys1 sys2 emsg ap => simp [Op.isInit] at hop
    | warnx sys emsg ap => simp [Op.isInit] at hop
    | info sys emsg ap => simp [Op.isInit] at hop
    | debug sys emsg ap => simp [Op.isInit] at hop
    | fatal sys emsg => simp [Op.isInit] at hop
    | fatalx sys emsg => simp [Op.isInit] at hop

theorem run_ordered (strerror : Int → String) (ops : List Op) :
    ∀ (st : State) (o : Bool), (st.debug = 0 → o = true) →
      syslogAfterOpenlog o (run strerror st ops).2 = true ∧
      ((run strerror st ops).1.debug = 0 → (o || opened (run strerror st ops).2) = true) := by
  induction ops with
  | nil =>
    intro st o hi
    exact ⟨rfl, fun h0 => by simp [run, hi h0]⟩
  | cons op ops ih =>
    intro st o hi
    have h1 := step_ordered strerror st op o hi
    have h2 := step_invariant strerror st op o hi
    have h3 := ih (step strerror st op).1 (o || opened (step strerror st op).2) h2
    simp only [run]
    split_ifs
    · exact ⟨h1, h2⟩
    · refine ⟨?_, ?_⟩
      · simp only [syslogAfterOpenlog_append, h1, h3.1, Bool.and_self]
      · intro h0
        have h4 := h3.2 h0
        simpa [opened_append, Bool.or_assoc] using h4

theorem step_no_syslog (strerror : Int → String) (st : State) (op : Op)
    (hd : st.debug ≠ 0) (hop : op.isInit = false) :
    syslogCalls (step strerror st op).2 = 0 := by
  cases op with
  | init n p => simp [Op.isInit] at hop
  | register cb => rfl
  | warn ok sys1 sys2 emsg ap =>
    cases emsg with
    | none => simpa [step, log_warn, logit] using vlog_no_syslog sys1 st LOG_WARNING _ _ hd
    | some m =>
      cases ok with
      | true => simpa [step, log_warn] using vlog_no_syslog sys1 st LOG_WARNING _ ap hd
      | false =>
        have h1 := vlog_no_syslog sys1 { st with errno := ENOMEM } LOG_WARNING m ap hd
        have hf := vlog_frame sys1 { st with errno := ENOMEM } LOG_WARNING m ap
        have h2 := vlog_no_syslog sys2 (vlog sys1 { st with errno := ENOMEM } LOG_WARNING m ap ap).1
          LOG_WARNING "%s"
          [Arg.str (strerror (vlog sys1 { st with errno := ENOMEM } LOG_WARNING m ap ap).1.errno)]
          (by rw [hf.1]; exact hd)
        simp only [syslogCalls] at h1 h2
        simp only [step, log_warn, logit, Bool.false_eq_true, if_false, syslogCalls,
          List.countP_append, h1, h2]
  | warnx sys emsg ap => exact vlog_no_syslog sys st LOG_WARNING emsg ap hd
  | info sys emsg ap =>
    simp only [step, log_info]
    split_ifs
    · exact vlog_no_syslog sys st LOG_INFO emsg ap hd
    · rfl
  | debug sys emsg ap =>
    simp only [step, log_debug]
    split_ifs
    · exact vlog_no_syslog sys st LOG_DEBUG emsg ap hd
    · rfl
  | fatal sys emsg =>
    have key : ∀ (fmt : String) (ap : List Arg),
        syslogCalls ((vlog sys st LOG_CRIT fmt ap ap).2 ++ [Event.exit 1]) = 0 := by
      intro fmt ap
      have h := vlog_no_syslog sys st LOG_CRIT fmt ap hd
      simp only [syslogCalls] at h
      simp [syslogCalls, List.countP_append, h]
    cases emsg with
    | none => simpa [step, fatal, logit] using key _ _
    | some m =>
      by_cases he : st.errno = 0
      · simpa [step, fatal, logit, he] using key _ _
      · simpa [step, fatal, logit, he] using key _ _
  | fatalx sys emsg =>
    have key : ∀ (fmt : String) (ap : List Arg),
        syslogCalls ((vlog sys { st with errno := 0 } LOG_CRIT fmt ap ap).2 ++ [Event.exit 1])
          = 0 := by
      intro fmt ap
      have h := vlog_no_syslog sys { st with errno := 0 } LOG_CRIT fmt ap hd
      simp only [syslogCalls] at h
      simp [syslogCalls, List.countP_append, h]
    cases emsg with
    | none => simpa [step, fatalx, fatal, logit] using key _ _
    | some m => simpa [step, fatalx, fatal, logit] using key _ _

theorem run_no_syslog (strerror : Int → String) (ops : List Op) :
    ∀ st : State, st.debug ≠ 0 → (∀ op ∈ ops, op.isInit = false) →
      syslogCalls (run strerror st ops).2 = 0 := by
  induction ops with
  | nil => intro st _ _; rfl
  | cons op ops ih =>
    intro st hd h
    have hop := h op (List.mem_cons_self _ _)
    have h1 := step_no_syslog strerror st op hd hop
    have h2 := ih (step strerror st op).1 (by rw [step_debug strerror st op hop]; exact hd)
      (fun o ho => h o (List.mem_cons_of_mem _ ho))
    simp only [run]
    split_ifs
    · exact h1
    · simp only [syslogCalls] at h1 h2
      simp only [syslogCalls, List.countP_append, h1, h2]

/-- C18: from the initial state (`debug = 1`, no handler, `openlog` not called),
after any sequence of calls of the API, `debug = 0` implies that `log_init` has
called `openlog`; every forward to syslog in the trace comes after a call of
`openlog`; and a sequence without `log_init` forwards nothing to syslog. -/
theorem syslog_only_after_openlog (strerror : Int → String) (e : Int) (ops : List Op) :
    ((run strerror { debug := 1, logh := none, errno := e } ops).1.debug = 0 →
      opened (run strerror { debug := 1, logh := none, errno := e } ops).2 = true) ∧
    syslogAfterOpenlog false (run strerror { debug := 1, logh := none, errno := e } ops).2
      = true ∧
    ((∀ op ∈ ops, op.isInit = false) →
      syslogCalls (run strerror { debug := 1, logh := none, errno := e } ops).2 = 0) := by
  have h := run_ordered strerror ops { debug := 1, logh := none, errno := e } false
    (fun h0 => absurd h0 (by simp))
  refine ⟨fun h0 => by simpa using h.2 h0, h.1, ?_⟩
  intro hno
  exact run_no_syslog strerror ops { debug := 1, logh := none, errno := e } (by simp) hno

theorem syslog_only_after_openlog_witness :
    opened (run strerrorLinux { debug := 1, logh := none, errno := 0 }
      [Op.warnx sysOk "early" [], Op.init 0 "lldpd", Op.warnx sysOk "late" []]).2 = true ∧
    syslogCalls (run strerrorLinux { debug := 1, logh := none, errno := 0 }
      [Op.warnx sysOk "early" [], Op.register (some 7), Op.register none,
        Op.warnx sysOk "late" []]).2 = 0 :=
  ⟨(syslog_only_after_openlog strerrorLinux 0
      [Op.warnx sysOk "early" [], Op.init 0 "lldpd", Op.warnx sysOk "late" []]).1 (by decide),
   (syslog_only_after_openlog strerrorLinux 0
      [Op.warnx sysOk "early" [], Op.register (some 7), Op.register none,
        Op.warnx sysOk "late" []]).2.2 (by decide)⟩

/-! ## The fallback of `log_warn` -/

/-- After a dispatch entered with `errno = ENOMEM`, `errno` is `ENOMEM` or what
`isatty` left there. -/
theorem vlog_errno_after_enomem (sys : Sys) (st : State) (pri : Int) (fmt : String)
    (ap : List Arg) (h : st.errno = ENOMEM) :
    (vlog sys st pri fmt ap ap).1.errno = ENOMEM ∨
      (vlog sys st pri fmt ap ap).1.errno = sys.isatty_errno := by
  unfold vlog
  cases hh : st.logh <;> simp only <;> split_ifs <;>
    simp only [errnoAfterIsatty, h] <;> (try split_ifs) <;> simp

/-- When the `"%s: %s"` allocation fails, `log_warn` performs two deliveries at
WARNING, in order: the caller's format rendered with its arguments, then the
description of the value `errno` has by then, which is `ENOMEM` (left by the
failed allocation) or the value `isatty` left (`ENOTTY`, `EBADF`), whatever
`errno` was when `log_warn` was called. -/
theorem log_warn_fallback_trace (strerror : Int → String) (sys1 sys2 : Sys) (st : State)
    (emsg : String) (ap : List Arg) :
    ∃ t1 t2 e, (log_warn strerror false sys1 sys2 st (some emsg) ap).2 = t1 ++ t2 ∧
      Delivered st.logh (date sys1.tm) (translate sys1 STDERR_FILENO LOG_WARNING) LOG_WARNING
        (vformat emsg ap) t1 ∧
      Delivered st.logh (date sys2.tm) (translate sys2 STDERR_FILENO LOG_WARNING) LOG_WARNING
        (strerror e) t2 ∧
      (e = ENOMEM ∨ e = sys1.isatty_errno) := by
  have h1 := vlog_delivers sys1 { st with errno := ENOMEM } LOG_WARNING emsg ap
  have hf := vlog_frame sys1 { st with errno := ENOMEM } LOG_WARNING emsg ap
  have h2 := vlog_delivers sys2 (vlog sys1 { st with errno := ENOMEM } LOG_WARNING emsg ap ap).1
    LOG_WARNING "%s"
    [Arg.str (strerror (vlog sys1 { st with errno := ENOMEM } LOG_WARNING emsg ap ap).1.errno)]
  rw [vformat_percent_s, hf.2] at h2
  exact ⟨_, _, _, by simp [log_warn, logit], h1, h2,
    vlog_errno_after_enomem sys1 { st with errno := ENOMEM } LOG_WARNING emsg ap rfl⟩

/-- C19, at a failing input: called with `errno = 2` (no such file or directory),
no handler and `debug = 0`, a `log_warn` whose `"%s: %s"` allocation fails
forwards the caller's message and then the description of `ENOMEM`, not the
description of error 2. -/
theorem log_warn_fallback_reports_enomem :
    (log_warn strerrorLinux false sysOk sysOk { debug := 0, logh := none, errno := 2 }
        (some "open %s") [Arg.str "f"]).2
      = [Event.syslog LOG_WARNING "open f", Event.syslog LOG_WARNING "Cannot allocate memory"] ∧
    strerrorLinux 2 = "No such file or directory" ∧
    strerrorLinux ENOMEM = "Cannot allocate memory" := by
  decide

end Log
